import Mathlib

/-!
# libfabric hello world: rendezvous handshake and ping-pong

A shallow embedding of `src/libfabric_helloworld/libfabric_helloworld.cpp`.

The program is a single-threaded client of the libfabric library.  Every
library entry point it calls is an external collaborator, so the embedding is
parametrised by an `Env` record that fixes what each call reports (for the
calls issued repeatedly, what the n-th call reports).  The program state is a
`World`: the file-scope globals of the source, one cursor per repeated call,
the chronological log of library calls (`calls`) and the console output
(`console`).

The unbounded polling loops (`wait_for_completion` and the two `fi_send`
retry loops of `main`) take a fuel argument; running out of fuel means the
loop is still spinning.
-/

namespace LibfabricHelloworld

/-! ## Constants and plain data -/

/-- The value of `FI_EAGAIN` in libfabric (`rdma/fi_errno.h` defines it as
the errno value `EAGAIN`, which is 11 on Linux). -/
def FI_EAGAIN : Int := 11

/-- Source line 44: `static size_t max_msg_size = 4096;`. -/
def max_msg_size : Nat := 4096

/-- The two completion queues of the program (`tx_cq`, `rx_cq`). -/
inductive Queue
  | tx_cq
  | rx_cq
  deriving DecidableEq, Repr

/-- The libfabric address-vector types (`enum fi_av_type`). -/
inductive AvType
  | FI_AV_UNSPEC
  | FI_AV_MAP
  | FI_AV_TABLE
  deriving DecidableEq, Repr

/-- The fabric objects an endpoint is bound to or that could be closed. -/
inductive Resource
  | ep
  | tx_cq
  | rx_cq
  | av
  | mr
  deriving DecidableEq, Repr

/-- The heap buffers of the program. -/
inductive Buffer
  | local_buf
  | remote_buf
  | addr
  deriving DecidableEq, Repr

/-- The two `fi_info` structures of the program. -/
inductive Info
  | hints
  | fi
  deriving DecidableEq, Repr

/-- The raw address handed to `fi_av_insert`: `fi->dest_addr` for the client,
the contents of `remote_buf` for the server. -/
inductive InsertSrc
  | dest_addr
  | remote_buf
  deriving DecidableEq, Repr

/-- A C string seen through a `char*`: the address it is stored at and its
text. -/
structure CharPtr where
  ptr : Nat
  text : String
  deriving DecidableEq, Repr

/-- One library call issued by the program, with what it reported. -/
inductive Call
  | fi_allocinfo
  | fi_getinfo (node : Option String) (fi_source : Bool) (ret : Int)
  | fi_fabric (ret : Int)
  | fi_domain (ret : Int)
  | fi_cq_open (q : Queue) (ret : Int)
  | fi_av_open (type : AvType) (ret : Int)
  | fi_endpoint (ret : Int)
  | malloc (b : Buffer) (ok : Bool)
  | fi_ep_bind (r : Resource) (ret : Int)
  | fi_enable (ret : Int)
  | fi_mr_reg (ret : Int)
  | fi_recv (ret : Int)
  | fi_av_insert (src : InsertSrc) (ret : Int)
  | fi_getname (fill : Bool) (ret : Int)
  | fi_send (buf : Buffer) (len : Nat) (dest : Nat) (ret : Int)
  | fi_cq_read (q : Queue) (ret : Int)
  | fi_cq_readerr (q : Queue)
  | fi_freeinfo (i : Info)
  | free (b : Buffer)
  | fi_close (r : Resource)
  deriving DecidableEq, Repr

/-- One line of console output.  Values that are printed next to a fixed text
are left out of `cout` and `cerr`; the two error reports that carry a status
have their own constructors. -/
inductive Out
  | cout (s : String)
  | cerr (s : String)
  | cerr_error (err : Int)
  | cout_cq_error (q : Queue)
  deriving DecidableEq, Repr

/-- What the library and the C runtime report to the program.  The statuses
are the values as stored in the `int` variables of the source. -/
structure Env where
  /-- Address at which the string literal `"--help"` of line 271 is stored. -/
  help_literal : Nat
  fi_getinfo : Int
  fi_fabric : Int
  fi_domain : Int
  fi_cq_open : Queue → Int
  fi_av_open : Int
  fi_endpoint : Int
  /-- Whether the `malloc` of the given buffer returns a non-null pointer. -/
  malloc : Buffer → Bool
  fi_ep_bind : Resource → Int
  fi_enable : Int
  fi_mr_reg : Int
  /-- The value of `fi->domain_attr->av_type`. -/
  av_type : AvType
  /-- Status of the n-th `fi_recv`. -/
  fi_recv : Nat → Int
  /-- Count reported by `fi_av_insert`. -/
  fi_av_insert : Int
  /-- Handle written to `remote_addr` by `fi_av_insert`. -/
  fi_addr : Nat
  /-- Value of `errno` after `fi_av_insert`. -/
  errno : Int
  /-- Status of the n-th `fi_getname` and the length it writes to `addrlen`. -/
  fi_getname : Nat → Int × Nat
  /-- Status of the n-th `fi_send`. -/
  fi_send : Nat → Int
  /-- Status of the n-th `fi_cq_read` on the given queue. -/
  fi_cq_read : Queue → Nat → Int
  /-- Status `fi_close` would report for the given resource. -/
  fi_close : Resource → Int

/-- The file-scope globals of the source (lines 28-46), the cursors of the
repeated calls, and the two logs. -/
structure World where
  dst_addr : Option CharPtr := none
  hints : Bool := false
  fi : Bool := false
  fabric : Bool := false
  domain : Bool := false
  tx_cq : Bool := false
  rx_cq : Bool := false
  av : Bool := false
  ep : Bool := false
  mr : Bool := false
  local_buf : Bool := false
  remote_buf : Bool := false
  addr : Bool := false
  addrlen : Nat := 0
  remote_addr : Nat := 0
  n_recv : Nat := 0
  n_getname : Nat := 0
  n_send : Nat := 0
  n_read_tx : Nat := 0
  n_read_rx : Nat := 0
  calls : List Call := []
  console : List Out := []

/-- The locals `err` and `ret` of `main`. -/
structure Locals where
  err : Int
  ret : Int
  deriving DecidableEq, Repr

/-- Where control is after a block of `main`. -/
inductive Ctl
  /-- Control falls through to the next statement. -/
  | next (l : Locals)
  /-- The block executed `goto exit`. -/
  | goto_exit (l : Locals)
  /-- A polling loop was still running when the fuel ran out. -/
  | spin
  deriving DecidableEq, Repr

/-- How one of the `fi_send` retry loops of `main` was left. -/
inductive SendLoop
  /-- The loop condition became false (`err` is not `-FI_EAGAIN`). -/
  | done (err : Int)
  /-- The `goto exit` inside the loop was taken. -/
  | goto_exit (err : Int)
  /-- The loop was still running when the fuel ran out. -/
  | spin
  deriving DecidableEq, Repr

/-! ## Logging and library calls -/

def World.call (w : World) (c : Call) : World :=
  { w with calls := w.calls ++ [c] }

def World.cout (w : World) (s : String) : World :=
  { w with console := w.console ++ [Out.cout s] }

def World.cerr (w : World) (s : String) : World :=
  { w with console := w.console ++ [Out.cerr s] }

/-- Number of `fi_cq_read` calls issued so far on a queue. -/
def World.n_read (w : World) : Queue → Nat
  | Queue.tx_cq => w.n_read_tx
  | Queue.rx_cq => w.n_read_rx

/-- A call `fi_cq_read(cq, &entry, 1)`. -/
def fi_cq_read (env : Env) (cq : Queue) (w : World) : Int × World :=
  let ret := env.fi_cq_read cq (w.n_read cq)
  let w := w.call (Call.fi_cq_read cq ret)
  match cq with
  | Queue.tx_cq => (ret, { w with n_read_tx := w.n_read_tx + 1 })
  | Queue.rx_cq => (ret, { w with n_read_rx := w.n_read_rx + 1 })

/-- A call `fi_recv(ep, remote_buf, max_msg_size, 0, 0, NULL)`. -/
def fi_recv (env : Env) (w : World) : Int × World :=
  let ret := env.fi_recv w.n_recv
  (ret, { w.call (Call.fi_recv ret) with n_recv := w.n_recv + 1 })

/-- A call `fi_send(ep, buf, len, NULL, remote_addr, NULL)`. -/
def fi_send (env : Env) (buf : Buffer) (len : Nat) (w : World) : Int × World :=
  let ret := env.fi_send w.n_send
  (ret, { w.call (Call.fi_send buf len w.remote_addr ret) with n_send := w.n_send + 1 })

/-- A call `fi_av_insert(av, src, 1, &remote_addr, 0, NULL)`. -/
def fi_av_insert (env : Env) (src : InsertSrc) (w : World) : Int × World :=
  let ret := env.fi_av_insert
  (ret, { w.call (Call.fi_av_insert src ret) with remote_addr := env.fi_addr })

/-- A call `fi_getname((fid_t)ep, buf, &addrlen)`; `fill` tells whether a
buffer is passed. -/
def fi_getname (env : Env) (fill : Bool) (w : World) : Int × World :=
  let r := env.fi_getname w.n_getname
  (r.1, { w.call (Call.fi_getname fill r.1) with
            addrlen := r.2, n_getname := w.n_getname + 1 })

/-! ## `wait_for_completion` (lines 49-65) -/

/-- Lines 49-65.  `none` means the loop was still polling when the fuel ran
out. -/
def wait_for_completion (env : Env) (cq : Queue) : Nat → World → Option Int × World
  | 0, w => (none, w)
  | fuel + 1, w =>
    let (ret, w) := fi_cq_read env cq w
    if ret > 0 then (some 0, w)
    else if ret ≠ -FI_EAGAIN then
      let w := w.call (Call.fi_cq_readerr cq)
      let w := { w with console := w.console ++ [Out.cout_cq_error cq] }
      (some ret, w)
    else wait_for_completion env cq fuel w

/-! ## Fabric, endpoint and binding setup (lines 67-224) -/

/-- The `exit:` block shared by `init_fabric`, `init_endpoint` and
`bind_endpoint`: a non-zero `err` is reported and replaces `ret`. -/
def init_exit (err ret : Int) (w : World) : Int × World :=
  if err ≠ 0 then
    (err, { w with console := w.console ++ [Out.cerr_error err] })
  else (ret, w)

/-- Lines 67-140. -/
def init_fabric (env : Env) (w : World) : Int × World :=
  let w := w.cout "Getting fi provider"
  let w := { w.call Call.fi_allocinfo with hints := true }
  let err := env.fi_getinfo
  let w := { w.call (Call.fi_getinfo (w.dst_addr.map CharPtr.text) w.dst_addr.isNone err)
             with fi := decide (err = 0) }
  if err ≠ 0 then init_exit err 0 w else
  let w := w.cout "Using provider: "
  let w := w.cout "Creating fabric object"
  let err := env.fi_fabric
  let w := { w.call (Call.fi_fabric err) with fabric := decide (err = 0) }
  if err ≠ 0 then init_exit err 0 w else
  let w := w.cout "Creating domain"
  let err := env.fi_domain
  let w := { w.call (Call.fi_domain err) with domain := decide (err = 0) }
  if err ≠ 0 then init_exit err 0 w else
  let w := w.cout "Creating tx completion queue"
  let err := env.fi_cq_open Queue.tx_cq
  let w := { w.call (Call.fi_cq_open Queue.tx_cq err) with tx_cq := decide (err = 0) }
  if err ≠ 0 then init_exit err 0 w else
  let w := w.cout "Creating rx completion queue"
  let err := env.fi_cq_open Queue.rx_cq
  let w := { w.call (Call.fi_cq_open Queue.rx_cq err) with rx_cq := decide (err = 0) }
  if err ≠ 0 then init_exit err 0 w else
  let w := w.cout "Creating address vector"
  let type := match env.av_type with
    | AvType.FI_AV_UNSPEC => AvType.FI_AV_MAP
    | t => t
  let err := env.fi_av_open
  let w := { w.call (Call.fi_av_open type err) with av := decide (err = 0) }
  if err ≠ 0 then init_exit err 0 w else
  init_exit err 0 w

/-- Lines 142-173. -/
def init_endpoint (env : Env) (w : World) : Int × World :=
  let w := w.cout "Creating endpoint"
  let err := env.fi_endpoint
  let w := { w.call (Call.fi_endpoint err) with ep := decide (err = 0) }
  if err ≠ 0 then init_exit err 0 w else
  let w := { w.call (Call.malloc Buffer.local_buf (env.malloc Buffer.local_buf))
             with local_buf := env.malloc Buffer.local_buf }
  let w := { w.call (Call.malloc Buffer.remote_buf (env.malloc Buffer.remote_buf))
             with remote_buf := env.malloc Buffer.remote_buf }
  if !w.local_buf || !w.remote_buf then
    init_exit err (-1) (w.cerr "malloc failure")
  else
  init_exit err 0 w

/-- Lines 175-224. -/
def bind_endpoint (env : Env) (w : World) : Int × World :=
  let w := w.cout "Binding AV to EP"
  let err := env.fi_ep_bind Resource.av
  let w := w.call (Call.fi_ep_bind Resource.av err)
  if err ≠ 0 then init_exit err 0 w else
  let w := w.cout "Binding Tx CQ to EP"
  let err := env.fi_ep_bind Resource.tx_cq
  let w := w.call (Call.fi_ep_bind Resource.tx_cq err)
  if err ≠ 0 then init_exit err 0 w else
  let w := w.cout "Binding Rx CQ to EP"
  let err := env.fi_ep_bind Resource.rx_cq
  let w := w.call (Call.fi_ep_bind Resource.rx_cq err)
  if err ≠ 0 then init_exit err 0 w else
  let w := w.cout "Enabling EP"
  let err := env.fi_enable
  let w := w.call (Call.fi_enable err)
  if err ≠ 0 then init_exit err 0 w else
  let w := w.cout "Registering memory region"
  let err := env.fi_mr_reg
  let w := { w.call (Call.fi_mr_reg err) with mr := decide (err = 0) }
  if err ≠ 0 then init_exit err 0 w else
  init_exit err 0 w

/-! ## Teardown and usage (lines 226-261) -/

/-- Lines 226-255.  The block between `#if 0` and `#endif` (lines 234-243,
the `fi_close` calls on `av`, `mr`, `tx_cq` and `rx_cq`) is not compiled and
therefore has no counterpart here; `env` is taken only so that the function
has the same shape as the other steps. -/
def release_all (_env : Env) (w : World) : Int × World :=
  let ret : Int := 0
  let w := w.cout "Cleaning up"
  let w := if w.hints then w.call (Call.fi_freeinfo Info.hints) else w
  let w := if w.fi then w.call (Call.fi_freeinfo Info.fi) else w
  let w := if w.local_buf then w.call (Call.free Buffer.local_buf) else w
  let w := if w.remote_buf then w.call (Call.free Buffer.remote_buf) else w
  let w := if w.addr then w.call (Call.free Buffer.addr) else w
  if ret ≠ 0 then (ret, w.cerr "ERROR - cleanup was not successful")
  else (ret, w)

/-- Lines 257-261. -/
def usage (w : World) : World :=
  let w := w.cout "Usage: ./libfabric_helloworld [optional server address]"
  let w := w.cout "            server address - remote server to connect to as a client."
  w.cout "                             If not specified, will run as a server."

/-! ## `main` (lines 263-419) -/

/-- The retry loop of lines 332-337 and 365-370:
`err = -FI_EAGAIN; while (err == -FI_EAGAIN) { err = fi_send(..); if (err && (err != -FI_EAGAIN)) goto exit; }`.
One unit of fuel is one iteration. -/
def send_loop (env : Env) (buf : Buffer) (len : Nat) : Nat → World → SendLoop × World
  | 0, w => (SendLoop.spin, w)
  | fuel + 1, w =>
    let (err, w) := fi_send env buf len w
    if err ≠ 0 ∧ err ≠ -FI_EAGAIN then (SendLoop.goto_exit err, w)
    else if err = -FI_EAGAIN then send_loop env buf len fuel w
    else (SendLoop.done err, w)

/-- Lines 285-292: the three setup steps and the first posted receive, whose
status is not looked at. -/
def setup (env : Env) (l : Locals) (w : World) : Ctl × World :=
  let (ret, w) := init_fabric env w
  if ret ≠ 0 then (Ctl.goto_exit { l with ret := ret }, w) else
  let (ret, w) := init_endpoint env w
  if ret ≠ 0 then (Ctl.goto_exit { l with ret := ret }, w) else
  let (ret, w) := bind_endpoint env w
  if ret ≠ 0 then (Ctl.goto_exit { l with ret := ret }, w) else
  let (_, w) := fi_recv env w
  (Ctl.next { l with ret := ret }, w)

/-- Lines 295-348: the client branch of the handshake. -/
def handshake_client (env : Env) (fuel : Nat) (l : Locals) (w : World) : Ctl × World :=
  let w := w.cout "Client: Adding server to AV"
  let (n, w) := fi_av_insert env InsertSrc.dest_addr w
  if 1 ≠ n then
    (Ctl.goto_exit { l with ret := -1 }, w.cerr "ERROR - fi_av_insert did not return 1")
  else
  let w := if env.errno ≠ 0 then w.cerr "ERROR - " else w
  if env.av_type = AvType.FI_AV_TABLE then
    (Ctl.goto_exit { l with ret := -1 }, w.cerr "ERROR - can not support FI_AV_TABLE")
  else
  let w := w.cout "Client: Getting address to send to server"
  let (_, w) := fi_getname env false w
  let w := { w.call (Call.malloc Buffer.addr (env.malloc Buffer.addr))
             with addr := env.malloc Buffer.addr }
  let (err, w) := fi_getname env true w
  if err ≠ 0 then (Ctl.goto_exit { l with err := err }, w)
  else if w.addrlen ≤ 0 then
    (Ctl.goto_exit { err := err, ret := -1 }, w.cout "Could not get client address")
  else
  let w := w.cout "Client: Sending"
  match send_loop env Buffer.addr w.addrlen fuel w with
  | (SendLoop.spin, w) => (Ctl.spin, w)
  | (SendLoop.goto_exit err, w) => (Ctl.goto_exit { l with err := err }, w)
  | (SendLoop.done _, w) =>
  let w := w.cout "Client: Waiting for ack"
  match wait_for_completion env Queue.rx_cq fuel w with
  | (none, w) => (Ctl.spin, w)
  | (some err, w) =>
  if err ≠ 0 then (Ctl.goto_exit { l with err := err }, w) else
  let w := w.cout "Client: Receiving"
  let (err, w) := fi_recv env w
  if err ≠ 0 then (Ctl.goto_exit { l with err := err }, w) else
  let w := w.cout "Client: Waiting for Tx CQ completion"
  match wait_for_completion env Queue.tx_cq fuel w with
  | (none, w) => (Ctl.spin, w)
  | (some err, w) =>
  if err ≠ 0 then (Ctl.goto_exit { l with err := err }, w) else
  (Ctl.next { l with err := err }, w)

/-- Lines 350-373: the server branch of the handshake.  The status of the
last `wait_for_completion(tx_cq)` (line 372) is not stored. -/
def handshake_server (env : Env) (fuel : Nat) (l : Locals) (w : World) : Ctl × World :=
  let w := w.cout "Server: Waiting for client to connect"
  match wait_for_completion env Queue.rx_cq fuel w with
  | (none, w) => (Ctl.spin, w)
  | (some err, w) =>
  if err ≠ 0 then (Ctl.goto_exit { l with err := err }, w) else
  let w := w.cout "Server: Receiving client address"
  let (err, w) := fi_recv env w
  if err ≠ 0 then (Ctl.goto_exit { l with err := err }, w) else
  let w := w.cout "Server: Adding client to AV"
  let (n, w) := fi_av_insert env InsertSrc.remote_buf w
  if 1 ≠ n then
    (Ctl.goto_exit { err := err, ret := -1 }, w.cerr "ERROR - fi_av_insert did not return 1")
  else
  let w := w.cout "Server: Sending ack"
  match send_loop env Buffer.local_buf 1 fuel w with
  | (SendLoop.spin, w) => (Ctl.spin, w)
  | (SendLoop.goto_exit err, w) => (Ctl.goto_exit { l with err := err }, w)
  | (SendLoop.done err, w) =>
  let w := w.cout "Server: Waiting for Tx CQ completion"
  match wait_for_completion env Queue.tx_cq fuel w with
  | (none, w) => (Ctl.spin, w)
  | (some _, w) => (Ctl.next { l with err := err }, w)

/-- Lines 294-373: `if (dst_addr) { client } else { server }`. -/
def handshake (env : Env) (fuel : Nat) (l : Locals) (w : World) : Ctl × World :=
  if w.dst_addr.isSome then handshake_client env fuel l w
  else handshake_server env fuel l w

/-- Lines 386-394: the client branch of the ping-pong phase. -/
def ping_pong_client (env : Env) (fuel : Nat) (l : Locals) (w : World) : Ctl × World :=
  let w := w.cout "Client: Sending ping pong message"
  let (err, w) := fi_send env Buffer.local_buf max_msg_size w
  if err ≠ 0 then (Ctl.goto_exit { l with err := err }, w) else
  let w := w.cout "Client: Waiting for Tx completion"
  match wait_for_completion env Queue.tx_cq fuel w with
  | (none, w) => (Ctl.spin, w)
  | (some err, w) =>
  if err ≠ 0 then (Ctl.goto_exit { l with err := err }, w) else
  let w := w.cout "Client: Waiting for Rx completion"
  match wait_for_completion env Queue.rx_cq fuel w with
  | (none, w) => (Ctl.spin, w)
  | (some err, w) =>
  if err ≠ 0 then (Ctl.goto_exit { l with err := err }, w) else
  let w := w.cout "Client: Receiving message"
  let (err, w) := fi_recv env w
  if err ≠ 0 then (Ctl.goto_exit { l with err := err }, w) else
  (Ctl.next { l with err := err }, w)

/-- Lines 396-404: the server branch of the ping-pong phase. -/
def ping_pong_server (env : Env) (fuel : Nat) (l : Locals) (w : World) : Ctl × World :=
  let w := w.cout "Server: Waiting for Rx completion"
  match wait_for_completion env Queue.rx_cq fuel w with
  | (none, w) => (Ctl.spin, w)
  | (some err, w) =>
  if err ≠ 0 then (Ctl.goto_exit { l with err := err }, w) else
  let w := w.cout "Server: Receiving message"
  let (err, w) := fi_recv env w
  if err ≠ 0 then (Ctl.goto_exit { l with err := err }, w) else
  let w := w.cout "Server: Sending message"
  let (err, w) := fi_send env Buffer.local_buf max_msg_size w
  if err ≠ 0 then (Ctl.goto_exit { l with err := err }, w) else
  let w := w.cout "Server: Waiting for Tx completion"
  match wait_for_completion env Queue.tx_cq fuel w with
  | (none, w) => (Ctl.spin, w)
  | (some err, w) =>
  if err ≠ 0 then (Ctl.goto_exit { l with err := err }, w) else
  (Ctl.next { l with err := err }, w)

/-- Lines 385-405: `if (dst_addr) { client } else { server }`. -/
def ping_pong (env : Env) (fuel : Nat) (l : Locals) (w : World) : Ctl × World :=
  if w.dst_addr.isSome then ping_pong_client env fuel l w
  else ping_pong_server env fuel l w

/-- Sequencing of two blocks of `main`: the second runs only when control
falls out of the first. -/
def Ctl.andThen (r : Ctl × World) (k : Locals → World → Ctl × World) : Ctl × World :=
  match r with
  | (Ctl.next l, w) => k l w
  | (Ctl.goto_exit l, w) => (Ctl.goto_exit l, w)
  | (Ctl.spin, w) => (Ctl.spin, w)

/-- Lines 285-373: setup and handshake. -/
def rendezvous (env : Env) (fuel : Nat) (l : Locals) (w : World) : Ctl × World :=
  Ctl.andThen (setup env l w) (handshake env fuel)

/-- Lines 408-418: the `exit:` label of `main`. -/
def main_exit (env : Env) (l : Locals) (w : World) : Int × World :=
  let (ret, w) :=
    if l.err ≠ 0 then
      (l.err, { w with console := w.console ++ [Out.cerr_error l.err] })
    else (l.ret, w)
  let (rel_err, w) := release_all env w
  if ret = 0 ∧ rel_err ≠ 0 then (rel_err, w) else (ret, w)

/-- Lines 285-418: everything after argument handling.  `none` means a
polling loop was still running when the fuel ran out. -/
def run (env : Env) (fuel : Nat) (w : World) : Option Int × World :=
  match Ctl.andThen (rendezvous env fuel { err := 0, ret := 0 } w) (ping_pong env fuel) with
  | (Ctl.spin, w) => (none, w)
  | (Ctl.next l, w) =>
    let (ret, w) := main_exit env l w
    (some ret, w)
  | (Ctl.goto_exit l, w) =>
    let (ret, w) := main_exit env l w
    (some ret, w)

/-- Lines 263-419.  `argc` is the length of `argv`.  On line 271,
`argv[1] == "--help"` compares a `char*` with the address of a string
literal: it is a comparison of addresses, not of texts. -/
def main (env : Env) (fuel : Nat) (argv : List CharPtr) : Option Int × World :=
  let w : World := {}
  match argv with
  | [] => run env fuel (w.cout "Running as SERVER")
  | [_] => run env fuel (w.cout "Running as SERVER")
  | [_, argv1] =>
    if argv1.ptr = env.help_literal then
      (some 0, usage w)
    else
      let w := { w with dst_addr := some argv1 }
      run env fuel (w.cout "Running as CLIENT - server addr=")
  | _ => (some (-1), usage (w.cout "Too many arguments!"))

/-! ## Closed forms used in the statements -/

/-- The queue is asked `k` times and answers `-FI_EAGAIN` each time, starting
at read number `n`; the next read reports `r`. -/
def Polls (env : Env) (cq : Queue) (n k : Nat) (r : Int) : Prop :=
  (∀ i, i < k → env.fi_cq_read cq (n + i) = -FI_EAGAIN) ∧ env.fi_cq_read cq (n + k) = r

/-- The calls of `k` reads answered `-FI_EAGAIN` followed by one read answered `r`. -/
def pollCalls (cq : Queue) (k : Nat) (r : Int) : List Call :=
  List.replicate k (Call.fi_cq_read cq (-FI_EAGAIN)) ++ [Call.fi_cq_read cq r]

/-- The world after `k` further reads on `cq`, all answered `-FI_EAGAIN`. -/
def World.polled (w : World) (cq : Queue) (k : Nat) : World :=
  match cq with
  | Queue.tx_cq =>
    { w with calls := w.calls ++ List.replicate k (Call.fi_cq_read Queue.tx_cq (-FI_EAGAIN)),
             n_read_tx := w.n_read_tx + k }
  | Queue.rx_cq =>
    { w with calls := w.calls ++ List.replicate k (Call.fi_cq_read Queue.rx_cq (-FI_EAGAIN)),
             n_read_rx := w.n_read_rx + k }

/-- The world after a wait that saw `k` answers `-FI_EAGAIN` and then a
positive answer `r`. -/
def World.waited (w : World) (cq : Queue) (k : Nat) (r : Int) : World :=
  match cq with
  | Queue.tx_cq =>
    { w with calls := w.calls ++ pollCalls Queue.tx_cq k r, n_read_tx := w.n_read_tx + (k + 1) }
  | Queue.rx_cq =>
    { w with calls := w.calls ++ pollCalls Queue.rx_cq k r, n_read_rx := w.n_read_rx + (k + 1) }

/-- The world after a wait that saw `k` answers `-FI_EAGAIN` and then the
answer `r`, neither positive nor `-FI_EAGAIN`. -/
def World.failedWait (w : World) (cq : Queue) (k : Nat) (r : Int) : World :=
  match cq with
  | Queue.tx_cq =>
    { w with calls := w.calls ++ (pollCalls Queue.tx_cq k r ++ [Call.fi_cq_readerr Queue.tx_cq]),
             n_read_tx := w.n_read_tx + (k + 1),
             console := w.console ++ [Out.cout_cq_error Queue.tx_cq] }
  | Queue.rx_cq =>
    { w with calls := w.calls ++ (pollCalls Queue.rx_cq k r ++ [Call.fi_cq_readerr Queue.rx_cq]),
             n_read_rx := w.n_read_rx + (k + 1),
             console := w.console ++ [Out.cout_cq_error Queue.rx_cq] }

/-- The calls of a send that is refused `k` times with `-FI_EAGAIN` and then
reports `r`. -/
def sendCalls (buf : Buffer) (len dest k : Nat) (r : Int) : List Call :=
  List.replicate k (Call.fi_send buf len dest (-FI_EAGAIN)) ++ [Call.fi_send buf len dest r]

/-- The next `k` calls of `fi_send`, starting at call number `n`, report
`-FI_EAGAIN`; the call after them reports `r`. -/
def Sends (env : Env) (n k : Nat) (r : Int) : Prop :=
  (∀ i, i < k → env.fi_send (n + i) = -FI_EAGAIN) ∧ env.fi_send (n + k) = r

/-- The world after `k` further calls of `fi_send`, all refused with `-FI_EAGAIN`. -/
def World.resent (w : World) (buf : Buffer) (len k : Nat) : World :=
  { w with calls := w.calls
              ++ List.replicate k (Call.fi_send buf len w.remote_addr (-FI_EAGAIN)),
           n_send := w.n_send + k }

/-- The world after a send loop that ended with status `r` after `k` refusals. -/
def World.sent (w : World) (buf : Buffer) (len k : Nat) (r : Int) : World :=
  { w with calls := w.calls ++ sendCalls buf len w.remote_addr k r,
           n_send := w.n_send + (k + 1) }

/-- Every setup call reports success and both message buffers are allocated. -/
def SetupOk (env : Env) : Prop :=
  env.fi_getinfo = 0 ∧ env.fi_fabric = 0 ∧ env.fi_domain = 0 ∧
  env.fi_cq_open Queue.tx_cq = 0 ∧ env.fi_cq_open Queue.rx_cq = 0 ∧
  env.fi_av_open = 0 ∧ env.fi_endpoint = 0 ∧
  env.malloc Buffer.local_buf = true ∧ env.malloc Buffer.remote_buf = true ∧
  env.fi_ep_bind Resource.av = 0 ∧ env.fi_ep_bind Resource.tx_cq = 0 ∧
  env.fi_ep_bind Resource.rx_cq = 0 ∧ env.fi_enable = 0 ∧ env.fi_mr_reg = 0

/-- The address-vector type `init_fabric` passes to `fi_av_open` (lines 125-126). -/
def openedAvType (env : Env) : AvType :=
  match env.av_type with
  | AvType.FI_AV_UNSPEC => AvType.FI_AV_MAP
  | t => t

/-- The calls of a setup in which everything succeeds, up to and including the
first posted receive (line 292). -/
def setupCalls (env : Env) (node : Option String) (recv0 : Int) : List Call :=
  [Call.fi_allocinfo, Call.fi_getinfo node node.isNone 0, Call.fi_fabric 0, Call.fi_domain 0,
   Call.fi_cq_open Queue.tx_cq 0, Call.fi_cq_open Queue.rx_cq 0,
   Call.fi_av_open (openedAvType env) 0, Call.fi_endpoint 0,
   Call.malloc Buffer.local_buf true, Call.malloc Buffer.remote_buf true,
   Call.fi_ep_bind Resource.av 0, Call.fi_ep_bind Resource.tx_cq 0,
   Call.fi_ep_bind Resource.rx_cq 0, Call.fi_enable 0, Call.fi_mr_reg 0,
   Call.fi_recv recv0]

/-- The console lines of a setup in which everything succeeds. -/
def setupConsole : List Out :=
  [Out.cout "Getting fi provider", Out.cout "Using provider: ",
   Out.cout "Creating fabric object", Out.cout "Creating domain",
   Out.cout "Creating tx completion queue", Out.cout "Creating rx completion queue",
   Out.cout "Creating address vector", Out.cout "Creating endpoint",
   Out.cout "Binding AV to EP", Out.cout "Binding Tx CQ to EP", Out.cout "Binding Rx CQ to EP",
   Out.cout "Enabling EP", Out.cout "Registering memory region"]

/-- The world after a setup in which everything succeeds. -/
def World.afterSetup (w : World) (env : Env) : World :=
  { w with hints := true, fi := true, fabric := true, domain := true, tx_cq := true,
           rx_cq := true, av := true, ep := true, mr := true,
           local_buf := true, remote_buf := true,
           n_recv := w.n_recv + 1,
           calls := w.calls
             ++ setupCalls env (w.dst_addr.map CharPtr.text) (env.fi_recv w.n_recv),
           console := w.console ++ setupConsole }

/-- The calls `release_all` issues in a given world. -/
def releaseCalls (w : World) : List Call :=
  (if w.hints then [Call.fi_freeinfo Info.hints] else [])
  ++ (if w.fi then [Call.fi_freeinfo Info.fi] else [])
  ++ (if w.local_buf then [Call.free Buffer.local_buf] else [])
  ++ (if w.remote_buf then [Call.free Buffer.remote_buf] else [])
  ++ (if w.addr then [Call.free Buffer.addr] else [])

/-- Calls issued by the setup steps (lines 67-224 and line 292). -/
def Call.isSetup : Call → Bool
  | Call.fi_allocinfo => true
  | Call.fi_getinfo _ _ _ => true
  | Call.fi_fabric _ => true
  | Call.fi_domain _ => true
  | Call.fi_cq_open _ _ => true
  | Call.fi_av_open _ _ => true
  | Call.fi_endpoint _ => true
  | Call.malloc _ _ => true
  | Call.fi_ep_bind _ _ => true
  | Call.fi_enable _ => true
  | Call.fi_mr_reg _ => true
  | Call.fi_recv _ => true
  | _ => false

/-- Calls that release memory in `release_all`. -/
def Call.isRelease : Call → Bool
  | Call.fi_freeinfo _ => true
  | Call.free _ => true
  | _ => false

/-- Calls issued by `wait_for_completion`. -/
def Call.isPoll : Call → Bool
  | Call.fi_cq_read _ _ => true
  | Call.fi_cq_readerr _ => true
  | _ => false

/-- Calls of `fi_send`. -/
def Call.isSend : Call → Bool
  | Call.fi_send _ _ _ _ => true
  | _ => false

/-- The second world has the same `dst_addr` as the first, and every call in
its log is either in the log of the first or satisfies `p`. -/
def World.Grows (w w' : World) (p : Call → Bool) : Prop :=
  w'.dst_addr = w.dst_addr ∧ ∀ x ∈ w'.calls, x ∈ w.calls ∨ p x = true

/-- Calls of `fi_av_insert`. -/
def Call.isInsert : Call → Bool
  | Call.fi_av_insert _ _ => true
  | _ => false

/-- Calls of `fi_getname`. -/
def Call.isGetname : Call → Bool
  | Call.fi_getname _ _ => true
  | _ => false

/-- Calls other than `fi_send`. -/
def Call.notSend (c : Call) : Bool := !c.isSend

/-- Calls other than `fi_av_insert`. -/
def Call.notInsert (c : Call) : Bool := !c.isInsert

/-- The calls of a client handshake in which everything succeeds (lines 298-347). -/
def clientHandshakeCalls (env : Env) (g0 : Int) (len ks k1 k2 : Nat) (r1 r2 : Int) : List Call :=
  [Call.fi_av_insert InsertSrc.dest_addr 1, Call.fi_getname false g0,
   Call.malloc Buffer.addr (env.malloc Buffer.addr), Call.fi_getname true 0]
  ++ sendCalls Buffer.addr len env.fi_addr ks 0
  ++ pollCalls Queue.rx_cq k1 r1 ++ [Call.fi_recv 0] ++ pollCalls Queue.tx_cq k2 r2

/-- The calls of a server handshake in which everything succeeds (lines 353-372). -/
def serverHandshakeCalls (env : Env) (k1 ks k2 : Nat) (r1 r2 : Int) : List Call :=
  pollCalls Queue.rx_cq k1 r1
  ++ [Call.fi_recv 0, Call.fi_av_insert InsertSrc.remote_buf 1]
  ++ sendCalls Buffer.local_buf 1 env.fi_addr ks 0
  ++ pollCalls Queue.tx_cq k2 r2

/-- The calls of the client ping-pong phase when everything succeeds (lines 388-394). -/
def clientPingPongCalls (dest k3 k4 : Nat) (r3 r4 : Int) : List Call :=
  [Call.fi_send Buffer.local_buf max_msg_size dest 0]
  ++ pollCalls Queue.tx_cq k3 r3 ++ pollCalls Queue.rx_cq k4 r4 ++ [Call.fi_recv 0]

/-- The calls of the server ping-pong phase when everything succeeds (lines 398-404). -/
def serverPingPongCalls (dest k3 k4 : Nat) (r3 r4 : Int) : List Call :=
  pollCalls Queue.rx_cq k3 r3
  ++ [Call.fi_recv 0, Call.fi_send Buffer.local_buf max_msg_size dest 0]
  ++ pollCalls Queue.tx_cq k4 r4

/-- A Connector run in which every operation succeeds: the address send is
refused `ks` times before it is accepted, and the four waits see `k1`, `k2`,
`k3`, `k4` empty polls before the positive counts `r1`, `r2`, `r3`, `r4`. -/
def ClientOk (env : Env) (ks k1 k2 k3 k4 : Nat) (r1 r2 r3 r4 : Int) : Prop :=
  SetupOk env ∧ env.malloc Buffer.addr = true ∧ env.fi_recv 0 = 0 ∧
  env.fi_av_insert = 1 ∧ env.av_type ≠ AvType.FI_AV_TABLE ∧
  (env.fi_getname 1).1 = 0 ∧ 0 < (env.fi_getname 1).2 ∧
  Sends env 0 ks 0 ∧
  (Polls env Queue.rx_cq 0 k1 r1 ∧ 0 < r1) ∧
  env.fi_recv 1 = 0 ∧
  (Polls env Queue.tx_cq 0 k2 r2 ∧ 0 < r2) ∧
  env.fi_send (ks + 1) = 0 ∧
  (Polls env Queue.tx_cq (k2 + 1) k3 r3 ∧ 0 < r3) ∧
  (Polls env Queue.rx_cq (k1 + 1) k4 r4 ∧ 0 < r4) ∧
  env.fi_recv 2 = 0

/-- A Listener run in which every operation succeeds: the acknowledgment is
refused `ks` times before it is accepted, and the four waits see `k1`, `k2`,
`k3`, `k4` empty polls before the positive counts `r1`, `r2`, `r3`, `r4`. -/
def ServerOk (env : Env) (ks k1 k2 k3 k4 : Nat) (r1 r2 r3 r4 : Int) : Prop :=
  SetupOk env ∧ env.fi_recv 0 = 0 ∧
  (Polls env Queue.rx_cq 0 k1 r1 ∧ 0 < r1) ∧
  env.fi_recv 1 = 0 ∧
  env.fi_av_insert = 1 ∧
  Sends env 0 ks 0 ∧
  (Polls env Queue.tx_cq 0 k2 r2 ∧ 0 < r2) ∧
  (Polls env Queue.rx_cq (k1 + 1) k3 r3 ∧ 0 < r3) ∧
  env.fi_recv 2 = 0 ∧
  env.fi_send (ks + 1) = 0 ∧
  (Polls env Queue.tx_cq (k2 + 1) k4 r4 ∧ 0 < r4)

/-- The calls of a Connector run in which every operation succeeds. -/
def clientRunCalls (env : Env) (node : String) (ks k1 k2 k3 k4 : Nat) (r1 r2 r3 r4 : Int) :
    List Call :=
  setupCalls env (some node) 0
  ++ clientHandshakeCalls env (env.fi_getname 0).1 (env.fi_getname 1).2 ks k1 k2 r1 r2
  ++ clientPingPongCalls env.fi_addr k3 k4 r3 r4
  ++ [Call.fi_freeinfo Info.hints, Call.fi_freeinfo Info.fi, Call.free Buffer.local_buf,
      Call.free Buffer.remote_buf, Call.free Buffer.addr]

/-- The calls of a Listener run in which every operation succeeds. -/
def serverRunCalls (env : Env) (ks k1 k2 k3 k4 : Nat) (r1 r2 r3 r4 : Int) : List Call :=
  setupCalls env none 0
  ++ serverHandshakeCalls env k1 ks k2 r1 r2
  ++ serverPingPongCalls env.fi_addr k3 k4 r3 r4
  ++ [Call.fi_freeinfo Info.hints, Call.fi_freeinfo Info.fi, Call.free Buffer.local_buf,
      Call.free Buffer.remote_buf]

/-- The calls issued before `release_all` frees `remote_buf`. -/
def callsBeforeFree (cs : List Call) : List Call :=
  cs.takeWhile (fun c => c != Call.free Buffer.remote_buf)

/-- Number of receives posted on `remote_buf`: calls of `fi_recv` that
reported success. -/
def receivesPosted (cs : List Call) : Nat :=
  cs.countP (fun c => match c with
    | Call.fi_recv ret => ret == 0
    | _ => false)

/-- Number of receive completions the program has awaited: reads of the
receive queue that returned an entry. -/
def completionsAwaited (cs : List Call) : Nat :=
  cs.countP (fun c => match c with
    | Call.fi_cq_read Queue.rx_cq ret => decide (0 < ret)
    | _ => false)

/-- Calls that are neither a send, nor a local-address query, nor a
completion-queue read. -/
def Call.notTransfer (c : Call) : Bool := !c.isSend && !c.isGetname && !c.isPoll

/-! ## Concrete providers and arguments -/

/-- A provider on which every call succeeds. -/
def envOk : Env where
  help_literal := 4210688
  fi_getinfo := 0
  fi_fabric := 0
  fi_domain := 0
  fi_cq_open := fun _ => 0
  fi_av_open := 0
  fi_endpoint := 0
  malloc := fun _ => true
  fi_ep_bind := fun _ => 0
  fi_enable := 0
  fi_mr_reg := 0
  av_type := AvType.FI_AV_MAP
  fi_recv := fun _ => 0
  fi_av_insert := 1
  fi_addr := 7
  errno := 0
  fi_getname := fun n => if n = 0 then (-257, 16) else (0, 16)
  fi_send := fun n => if n = 0 then -FI_EAGAIN else 0
  fi_cq_read := fun _ n => if n % 2 = 0 then -FI_EAGAIN else 1
  fi_close := fun _ => 0

/-- The program name as passed in `argv[0]`. -/
def progName : CharPtr := { ptr := 140737488349000, text := "./libfabric_helloworld" }
/-- A server address passed as `argv[1]`. -/
def serverArg : CharPtr := { ptr := 140737488349023, text := "10.0.0.1" }
/-- The argument `--help` as it reaches `main`: a string on the stack of the
process, at an address other than that of the literal on line 271. -/
def helpArg : CharPtr := { ptr := 140737488349023, text := "--help" }

/-- A provider whose addressing mode is `FI_AV_TABLE`. -/
def envTable : Env := { envOk with av_type := AvType.FI_AV_TABLE }
/-- A provider whose `fi_av_insert` inserts nothing. -/
def envInsertZero : Env := { envOk with fi_av_insert := 0 }
/-- A provider that refuses the second `fi_send` once with `-FI_EAGAIN` and
accepts every other one. -/
def envPingBusy : Env := { envOk with fi_send := fun n => if n = 1 then -FI_EAGAIN else 0 }
/-- A provider whose first read of the transmit queue reports the error
`-FI_EAVAIL` (-259). -/
def envAckWaitFails : Env :=
  { envOk with fi_cq_read := fun q n =>
      match q with
      | Queue.tx_cq => if n = 0 then -259 else 1
      | Queue.rx_cq => 1 }
/-- A provider that cannot resolve the destination: `fi_getinfo` reports
`-FI_ENODATA` (-61). -/
def envNoHost : Env := { envOk with fi_getinfo := -61 }
/-- A provider on which closing the address vector would fail with `-FI_EBUSY`. -/
def envCloseFails : Env :=
  { envOk with fi_close := fun r => if r = Resource.av then -16 else 0 }
/-- A provider whose completion-queue reads report zero entries. -/
def envZeroRead : Env := { envOk with fi_cq_read := fun _ _ => 0 }

instance (env : Env) (cq : Queue) (n k : Nat) (r : Int) : Decidable (Polls env cq n k r) := by
  unfold Polls; infer_instance
instance (env : Env) (n k : Nat) (r : Int) : Decidable (Sends env n k r) := by
  unfold Sends; infer_instance
instance (env : Env) : Decidable (SetupOk env) := by
  unfold SetupOk; infer_instance
instance (env : Env) (ks k1 k2 k3 k4 : Nat) (r1 r2 r3 r4 : Int) :
    Decidable (ClientOk env ks k1 k2 k3 k4 r1 r2 r3 r4) := by
  unfold ClientOk; infer_instance
instance (env : Env) (ks k1 k2 k3 k4 : Nat) (r1 r2 r3 r4 : Int) :
    Decidable (ServerOk env ks k1 k2 k3 k4 r1 r2 r3 r4) := by
  unfold ServerOk; infer_instance

/-! ## Lemmas on `wait_for_completion` -/

theorem FI_EAGAIN_pos : 0 < FI_EAGAIN := by decide

theorem wait_step_eagain (env : Env) (cq : Queue) (fuel : Nat) (w : World)
    (h : env.fi_cq_read cq (w.n_read cq) = -FI_EAGAIN) :
    wait_for_completion env cq (fuel + 1) w = wait_for_completion env cq fuel (w.polled cq 1) := by
  have hp := FI_EAGAIN_pos
  have hn : ¬ (-FI_EAGAIN > 0) := by omega
  cases cq <;>
    simp [wait_for_completion, fi_cq_read, World.call, World.polled, h, hn]

theorem polled_polled (w : World) (cq : Queue) (a b : Nat) :
    (w.polled cq a).polled cq b = w.polled cq (a + b) := by
  cases cq <;> simp only [World.polled, List.replicate_add, Nat.add_assoc, List.append_assoc]

theorem polled_zero (w : World) (cq : Queue) : w.polled cq 0 = w := by
  cases cq <;> simp [World.polled]

theorem polled_n_read (w : World) (cq : Queue) (k : Nat) :
    (w.polled cq k).n_read cq = w.n_read cq + k := by
  cases cq <;> simp [World.polled, World.n_read]

theorem wait_spin (env : Env) (cq : Queue) (k : Nat) :
    ∀ (fuel : Nat) (w : World),
      (∀ i, i < k → env.fi_cq_read cq (w.n_read cq + i) = -FI_EAGAIN) →
      wait_for_completion env cq (k + fuel) w
        = wait_for_completion env cq fuel (w.polled cq k) := by
  induction k with
  | zero => intro fuel w _; simp [polled_zero]
  | succ k ih =>
    intro fuel w h
    have h0 : env.fi_cq_read cq (w.n_read cq) = -FI_EAGAIN := by simpa using h 0 (by omega)
    have e : k + 1 + fuel = (k + fuel) + 1 := by omega
    rw [e, wait_step_eagain env cq _ w h0, ih fuel (w.polled cq 1), polled_polled]
    · congr 2; omega
    · intro i hi
      rw [polled_n_read]
      have := h (1 + i) (by omega)
      simpa [Nat.add_assoc] using this

theorem wait_out_of_fuel (env : Env) (cq : Queue) (k : Nat) (w : World)
    (h : ∀ i, i < k → env.fi_cq_read cq (w.n_read cq + i) = -FI_EAGAIN) :
    wait_for_completion env cq k w = (none, w.polled cq k) := by
  have := wait_spin env cq k 0 w h
  simpa [wait_for_completion] using this

theorem wait_ok (env : Env) (cq : Queue) (k : Nat) (r : Int) (fuel : Nat) (w : World)
    (h : Polls env cq (w.n_read cq) k r) (hr : 0 < r) (hf : k < fuel) :
    wait_for_completion env cq fuel w = (some 0, w.waited cq k r) := by
  obtain ⟨j, rfl⟩ : ∃ j, fuel = k + (j + 1) := ⟨fuel - k - 1, by omega⟩
  rw [wait_spin env cq k (j + 1) w h.1]
  have hl : env.fi_cq_read cq ((w.polled cq k).n_read cq) = r := by
    rw [polled_n_read]; exact h.2
  cases cq <;>
    simp [wait_for_completion, fi_cq_read, World.call, hl, hr] <;>
    simp [World.polled, World.waited, pollCalls] <;> omega

theorem wait_fail (env : Env) (cq : Queue) (k : Nat) (r : Int) (fuel : Nat) (w : World)
    (h : Polls env cq (w.n_read cq) k r) (hr : ¬ 0 < r) (hne : r ≠ -FI_EAGAIN) (hf : k < fuel) :
    wait_for_completion env cq fuel w = (some r, w.failedWait cq k r) := by
  obtain ⟨j, rfl⟩ : ∃ j, fuel = k + (j + 1) := ⟨fuel - k - 1, by omega⟩
  rw [wait_spin env cq k (j + 1) w h.1]
  have hl : env.fi_cq_read cq ((w.polled cq k).n_read cq) = r := by
    rw [polled_n_read]; exact h.2
  cases cq <;>
    simp [wait_for_completion, fi_cq_read, World.call, hl, hr, hne] <;>
    simp [World.polled, World.failedWait, pollCalls] <;> omega

theorem waited_calls (w : World) (cq : Queue) (k : Nat) (r : Int) :
    (w.waited cq k r).calls
      = w.calls ++ List.replicate k (Call.fi_cq_read cq (-FI_EAGAIN)) ++ [Call.fi_cq_read cq r] := by
  cases cq <;> simp [World.waited, pollCalls]

theorem failedWait_calls (w : World) (cq : Queue) (k : Nat) (r : Int) :
    (w.failedWait cq k r).calls
      = w.calls ++ List.replicate k (Call.fi_cq_read cq (-FI_EAGAIN))
          ++ [Call.fi_cq_read cq r, Call.fi_cq_readerr cq] := by
  cases cq <;> simp [World.failedWait, pollCalls]

/-! ## C1: the contract of `wait_for_completion` -/

/-- C1.  Let the queue answer `-FI_EAGAIN` to the next `k` reads and `r` to the
read after them.  Then `wait_for_completion` has not returned after `k` or
fewer iterations, and with more than `k` iterations available it returns after
exactly `k + 1` reads: it returns 0 when `r > 0`, and when `r` is negative and
not `-FI_EAGAIN` it calls `fi_cq_readerr` exactly once and returns `r`, which
is not 0. -/
theorem wait_for_completion_contract (env : Env) (cq : Queue) (w : World) (k : Nat) (r : Int)
    (h : Polls env cq (w.n_read cq) k r) :
    (∀ fuel, fuel ≤ k → (wait_for_completion env cq fuel w).1 = none) ∧
    (∀ fuel, k < fuel →
      (0 < r →
        (wait_for_completion env cq fuel w).1 = some 0 ∧
        (wait_for_completion env cq fuel w).2.calls
          = w.calls ++ List.replicate k (Call.fi_cq_read cq (-FI_EAGAIN))
              ++ [Call.fi_cq_read cq r]) ∧
      (r < 0 → r ≠ -FI_EAGAIN →
        (wait_for_completion env cq fuel w).1 = some r ∧ r ≠ 0 ∧
        (wait_for_completion env cq fuel w).2.calls
          = w.calls ++ List.replicate k (Call.fi_cq_read cq (-FI_EAGAIN))
              ++ [Call.fi_cq_read cq r, Call.fi_cq_readerr cq])) := by
  refine ⟨?_, ?_⟩
  · intro fuel hf
    rw [wait_out_of_fuel env cq fuel w (fun i hi => h.1 i (by omega))]
  · intro fuel hf
    refine ⟨?_, ?_⟩
    · intro hr
      rw [wait_ok env cq k r fuel w h hr hf]
      exact ⟨rfl, waited_calls w cq k r⟩
    · intro hr hne
      rw [wait_fail env cq k r fuel w h (by omega) hne hf]
      exact ⟨rfl, by omega, failedWait_calls w cq k r⟩

/-! ## Lemmas on `release_all`, `setup` and the send loop -/

theorem release_all_eq (env : Env) (w : World) :
    release_all env w
      = (0, { w with calls := w.calls ++ releaseCalls w,
                     console := w.console ++ [Out.cout "Cleaning up"] }) := by
  rcases w with ⟨dst, hints, fi, fabric, domain, tx, rx, av, ep, mr, lb, rb, addr,
    alen, raddr, nr, ng, ns, ntx, nrx, calls, console⟩
  cases hints <;> cases fi <;> cases lb <;> cases rb <;> cases addr <;>
    simp [release_all, releaseCalls, World.cout, World.call]

theorem releaseCalls_isRelease (w : World) : ∀ c ∈ releaseCalls w, c.isRelease = true := by
  intro c hc
  simp only [releaseCalls, List.mem_append] at hc
  rcases hc with (((h | h) | h) | h) | h <;> split at h <;> simp_all [Call.isRelease]

theorem init_fabric_ok (env : Env) (w : World)
    (h1 : env.fi_getinfo = 0) (h2 : env.fi_fabric = 0) (h3 : env.fi_domain = 0)
    (h4 : env.fi_cq_open Queue.tx_cq = 0) (h5 : env.fi_cq_open Queue.rx_cq = 0)
    (h6 : env.fi_av_open = 0) :
    init_fabric env w
      = (0, { w with hints := true, fi := true, fabric := true, domain := true, tx_cq := true,
                     rx_cq := true, av := true,
                     calls := w.calls ++ (setupCalls env (w.dst_addr.map CharPtr.text) 0).take 7,
                     console := w.console ++ setupConsole.take 7 }) := by
  simp [init_fabric, init_exit, World.call, World.cout, setupCalls, setupConsole, openedAvType,
    h1, h2, h3, h4, h5, h6]

theorem init_endpoint_ok (env : Env) (w : World)
    (h7 : env.fi_endpoint = 0) (h8 : env.malloc Buffer.local_buf = true)
    (h9 : env.malloc Buffer.remote_buf = true) :
    init_endpoint env w
      = (0, { w with ep := true, local_buf := true, remote_buf := true,
                     calls := w.calls ++ [Call.fi_endpoint 0, Call.malloc Buffer.local_buf true,
                                          Call.malloc Buffer.remote_buf true],
                     console := w.console ++ [Out.cout "Creating endpoint"] }) := by
  simp [init_endpoint, init_exit, World.call, World.cout, h7, h8, h9]

theorem bind_endpoint_ok (env : Env) (w : World)
    (h10 : env.fi_ep_bind Resource.av = 0) (h11 : env.fi_ep_bind Resource.tx_cq = 0)
    (h12 : env.fi_ep_bind Resource.rx_cq = 0) (h13 : env.fi_enable = 0)
    (h14 : env.fi_mr_reg = 0) :
    bind_endpoint env w
      = (0, { w with mr := true,
                     calls := w.calls ++ [Call.fi_ep_bind Resource.av 0,
                        Call.fi_ep_bind Resource.tx_cq 0, Call.fi_ep_bind Resource.rx_cq 0,
                        Call.fi_enable 0, Call.fi_mr_reg 0],
                     console := w.console ++ setupConsole.drop 8 }) := by
  simp [bind_endpoint, init_exit, World.call, World.cout, setupConsole, h10, h11, h12, h13, h14]

theorem setup_ok (env : Env) (l : Locals) (w : World) (h : SetupOk env) :
    setup env l w = (Ctl.next { l with ret := 0 }, w.afterSetup env) := by
  obtain ⟨h1, h2, h3, h4, h5, h6, h7, h8, h9, h10, h11, h12, h13, h14⟩ := h
  simp [setup, init_fabric_ok env _ h1 h2 h3 h4 h5 h6, init_endpoint_ok env _ h7 h8 h9,
    bind_endpoint_ok env _ h10 h11 h12 h13 h14, fi_recv, World.call, World.afterSetup,
    setupCalls, setupConsole]

theorem World.Grows.refl (w : World) (p : Call → Bool) : w.Grows w p :=
  ⟨rfl, fun _ hx => Or.inl hx⟩

theorem World.Grows.trans {w1 w2 w3 : World} {p : Call → Bool}
    (h12 : w1.Grows w2 p) (h23 : w2.Grows w3 p) : w1.Grows w3 p := by
  refine ⟨h23.1.trans h12.1, fun x hx => ?_⟩
  rcases h23.2 x hx with h | h
  · exact h12.2 x h
  · exact Or.inr h

theorem World.Grows.mono {w1 w2 : World} {p q : Call → Bool}
    (h : w1.Grows w2 p) (hpq : ∀ x, p x = true → q x = true) : w1.Grows w2 q :=
  ⟨h.1, fun x hx => (h.2 x hx).imp id (hpq x)⟩

theorem World.Grows.call (w : World) (p : Call → Bool) (c : Call) (hc : p c = true) :
    w.Grows (w.call c) p := by
  refine ⟨rfl, fun x hx => ?_⟩
  simp only [World.call, List.mem_append, List.mem_singleton] at hx
  rcases hx with h | h
  · exact Or.inl h
  · exact Or.inr (h ▸ hc)

theorem World.Grows.append (w w' : World) (p : Call → Bool) (cs : List Call)
    (hd : w'.dst_addr = w.dst_addr) (hc : w'.calls = w.calls ++ cs)
    (hp : ∀ x ∈ cs, p x = true) : w.Grows w' p := by
  refine ⟨hd, fun x hx => ?_⟩
  rw [hc, List.mem_append] at hx
  exact hx.imp id (hp x)

theorem init_fabric_grows (env : Env) (w : World) :
    w.Grows (init_fabric env w).2 Call.isSetup := by
  rcases w with ⟨dst, hints, fi, fabric, domain, tx, rx, av, ep, mr, lb, rb, addr,
    alen, raddr, nr, ng, ns, ntx, nrx, calls, console⟩
  simp only [init_fabric, init_exit, World.call, World.cout]
  split_ifs <;>
    (simp only [List.append_assoc, List.cons_append, List.nil_append]
     refine World.Grows.append _ _ _ _ rfl rfl ?_
     simp [Call.isSetup])

theorem init_endpoint_grows (env : Env) (w : World) :
    w.Grows (init_endpoint env w).2 Call.isSetup := by
  rcases w with ⟨dst, hints, fi, fabric, domain, tx, rx, av, ep, mr, lb, rb, addr,
    alen, raddr, nr, ng, ns, ntx, nrx, calls, console⟩
  simp only [init_endpoint, init_exit, World.call, World.cout, World.cerr]
  split_ifs <;>
    (simp only [List.append_assoc, List.cons_append, List.nil_append]
     refine World.Grows.append _ _ _ _ rfl rfl ?_
     simp [Call.isSetup])

theorem bind_endpoint_grows (env : Env) (w : World) :
    w.Grows (bind_endpoint env w).2 Call.isSetup := by
  rcases w with ⟨dst, hints, fi, fabric, domain, tx, rx, av, ep, mr, lb, rb, addr,
    alen, raddr, nr, ng, ns, ntx, nrx, calls, console⟩
  simp only [bind_endpoint, init_exit, World.call, World.cout]
  split_ifs <;>
    (simp only [List.append_assoc, List.cons_append, List.nil_append]
     refine World.Grows.append _ _ _ _ rfl rfl ?_
     simp [Call.isSetup])

theorem fi_recv_grows (env : Env) (w : World) :
    w.Grows (fi_recv env w).2 Call.isSetup :=
  World.Grows.append _ _ _ [Call.fi_recv (env.fi_recv w.n_recv)] rfl rfl (by simp [Call.isSetup])

/-- What `setup` does on every path: it only issues setup calls, and either
falls through with `ret = 0` or jumps to `exit` with a non-zero `ret`; `err`
is left alone. -/
theorem setup_spec (env : Env) (l : Locals) (w : World) :
    w.Grows (setup env l w).2 Call.isSetup ∧
    ((setup env l w).1 = Ctl.next { l with ret := 0 } ∨
      ∃ ret, ret ≠ 0 ∧ (setup env l w).1 = Ctl.goto_exit { l with ret := ret }) := by
  have g1 := init_fabric_grows env w
  have g2 := init_endpoint_grows env (init_fabric env w).2
  have g3 := bind_endpoint_grows env (init_endpoint env (init_fabric env w).2).2
  have g4 := fi_recv_grows env (bind_endpoint env (init_endpoint env (init_fabric env w).2).2).2
  simp only [setup]
  by_cases h1 : (init_fabric env w).1 = 0
  · by_cases h2 : (init_endpoint env (init_fabric env w).2).1 = 0
    · by_cases h3 : (bind_endpoint env (init_endpoint env (init_fabric env w).2).2).1 = 0
      · simp only [h1, h2, h3, ne_eq, not_true_eq_false, if_false]
        exact ⟨(g1.trans g2).trans (g3.trans g4), Or.inl trivial⟩
      · simp only [h1, h2, h3, ne_eq, not_true_eq_false, not_false_eq_true, if_false, if_true]
        exact ⟨(g1.trans g2).trans g3, Or.inr ⟨_, h3, rfl⟩⟩
    · simp only [h1, h2, ne_eq, not_true_eq_false, not_false_eq_true, if_false, if_true]
      exact ⟨g1.trans g2, Or.inr ⟨_, h2, rfl⟩⟩
  · simp only [h1, ne_eq, not_false_eq_true, if_true]
    exact ⟨g1, Or.inr ⟨_, h1, rfl⟩⟩

theorem fi_cq_read_grows (env : Env) (cq : Queue) (w : World) :
    w.Grows (fi_cq_read env cq w).2 Call.isPoll := by
  cases cq <;>
    exact World.Grows.append _ _ _ [Call.fi_cq_read _ _] rfl rfl (by simp [Call.isPoll])

theorem wait_grows (env : Env) (cq : Queue) (fuel : Nat) :
    ∀ w : World, w.Grows (wait_for_completion env cq fuel w).2 Call.isPoll := by
  induction fuel with
  | zero => intro w; exact World.Grows.refl w _
  | succ n ih =>
    intro w
    have g := fi_cq_read_grows env cq w
    simp only [wait_for_completion]
    split_ifs
    · exact g
    · exact g.trans ((World.Grows.call _ _ (Call.fi_cq_readerr cq) rfl).trans
        (World.Grows.append _ _ _ [] rfl (by simp) (by simp)))
    · exact g.trans (ih _)

theorem fi_send_grows (env : Env) (buf : Buffer) (len : Nat) (w : World) :
    w.Grows (fi_send env buf len w).2 Call.isSend :=
  World.Grows.append _ _ _ [Call.fi_send buf len w.remote_addr (env.fi_send w.n_send)] rfl rfl
    (by simp [Call.isSend])

theorem send_loop_grows (env : Env) (buf : Buffer) (len : Nat) (fuel : Nat) :
    ∀ w : World, w.Grows (send_loop env buf len fuel w).2 Call.isSend := by
  induction fuel with
  | zero => intro w; exact World.Grows.refl w _
  | succ n ih =>
    intro w
    have g := fi_send_grows env buf len w
    simp only [send_loop]
    split_ifs
    · exact g
    · exact g.trans (ih _)
    · exact g

theorem main_exit_eq (env : Env) (l : Locals) (w : World) :
    main_exit env l w
      = (if l.err ≠ 0 then l.err else l.ret,
         { w with calls := w.calls ++ releaseCalls w,
                  console := w.console
                    ++ ((if l.err ≠ 0 then [Out.cerr_error l.err] else [])
                          ++ [Out.cout "Cleaning up"]) }) := by
  rcases w with ⟨dst, hints, fi, fabric, domain, tx, rx, av, ep, mr, lb, rb, addr,
    alen, raddr, nr, ng, ns, ntx, nrx, calls, console⟩
  by_cases h : l.err = 0 <;>
    simp [main_exit, release_all_eq, releaseCalls, h]

theorem main_exit_grows (env : Env) (l : Locals) (w : World) :
    w.Grows (main_exit env l w).2 Call.isRelease := by
  rw [main_exit_eq]
  exact World.Grows.append _ _ _ (releaseCalls w) rfl rfl (releaseCalls_isRelease w)

/-! ## Paths that abort at the insertion -/



theorem isSetup_notSend (x : Call) (h : x.isSetup = true) : x.notSend = true := by
  cases x <;> simp_all [Call.isSetup, Call.notSend, Call.isSend]
theorem isSetup_notInsert (x : Call) (h : x.isSetup = true) : x.notInsert = true := by
  cases x <;> simp_all [Call.isSetup, Call.notInsert, Call.isInsert]
theorem isPoll_notSend (x : Call) (h : x.isPoll = true) : x.notSend = true := by
  cases x <;> simp_all [Call.isPoll, Call.notSend, Call.isSend]
theorem isPoll_notInsert (x : Call) (h : x.isPoll = true) : x.notInsert = true := by
  cases x <;> simp_all [Call.isPoll, Call.notInsert, Call.isInsert]
theorem isRelease_notSend (x : Call) (h : x.isRelease = true) : x.notSend = true := by
  cases x <;> simp_all [Call.isRelease, Call.notSend, Call.isSend]
theorem isRelease_notInsert (x : Call) (h : x.isRelease = true) : x.notInsert = true := by
  cases x <;> simp_all [Call.isRelease, Call.notInsert, Call.isInsert]

theorem World.Grows.cout (w : World) (p : Call → Bool) (s : String) : w.Grows (w.cout s) p :=
  World.Grows.append _ _ _ [] rfl (by simp [World.cout]) (by simp)

theorem World.Grows.cerr (w : World) (p : Call → Bool) (s : String) : w.Grows (w.cerr s) p :=
  World.Grows.append _ _ _ [] rfl (by simp [World.cerr]) (by simp)

theorem fi_av_insert_grows (env : Env) (src : InsertSrc) (w : World) :
    w.Grows (fi_av_insert env src w).2 Call.isInsert :=
  World.Grows.append _ _ _ [Call.fi_av_insert src env.fi_av_insert] rfl rfl
    (by simp [Call.isInsert])

theorem fi_av_insert_fst (env : Env) (src : InsertSrc) (w : World) :
    (fi_av_insert env src w).1 = env.fi_av_insert := rfl

theorem handshake_client_insert_abort (env : Env) (fuel : Nat) (l : Locals) (w : World)
    (hc : env.fi_av_insert ≠ 1) :
    (handshake_client env fuel l w).1 = Ctl.goto_exit { l with ret := -1 } ∧
    w.Grows (handshake_client env fuel l w).2 Call.notSend := by
  have hc' : (1 : Int) ≠ env.fi_av_insert := fun h => hc h.symm
  have g := ((World.Grows.cout w Call.isInsert "Client: Adding server to AV").trans
    (fi_av_insert_grows env InsertSrc.dest_addr _)).trans
    (World.Grows.cerr _ _ "ERROR - fi_av_insert did not return 1")
  simp only [handshake_client, fi_av_insert_fst, hc', ne_eq, not_false_eq_true, if_true, true_and]
  refine World.Grows.mono g (fun x hx => ?_)
  cases x <;> simp_all [Call.isInsert, Call.notSend, Call.isSend]

theorem handshake_server_insert_abort (env : Env) (fuel : Nat) (l : Locals) (w : World)
    (hc : env.fi_av_insert ≠ 1) :
    ((handshake_server env fuel l w).1 = Ctl.goto_exit { err := 0, ret := -1 } ∧
      w.Grows (handshake_server env fuel l w).2 Call.notSend) ∨
    (((handshake_server env fuel l w).1 = Ctl.spin ∨
        ∃ l', (handshake_server env fuel l w).1 = Ctl.goto_exit l') ∧
      w.Grows (handshake_server env fuel l w).2 Call.notInsert) := by
  have hc' : (1 : Int) ≠ env.fi_av_insert := fun h => hc h.symm
  have g0 := World.Grows.cout w Call.isPoll "Server: Waiting for client to connect"
  have g1 := wait_grows env Queue.rx_cq fuel (w.cout "Server: Waiting for client to connect")
  simp only [handshake_server]
  rcases hw : wait_for_completion env Queue.rx_cq fuel
      (w.cout "Server: Waiting for client to connect") with ⟨_ | err, w1⟩
  · rw [hw] at g1
    right
    exact ⟨Or.inl rfl, (g0.trans g1).mono isPoll_notInsert⟩
  · rw [hw] at g1
    have g01 := g0.trans g1
    by_cases he : err = 0
    · subst he
      have g2 := (World.Grows.cout w1 Call.isSetup "Server: Receiving client address").trans
        (fi_recv_grows env _)
      by_cases hr : (fi_recv env (w1.cout "Server: Receiving client address")).1 = 0
      · left
        have g3 := ((World.Grows.cout (fi_recv env (w1.cout "Server: Receiving client address")).2
          Call.isInsert "Server: Adding client to AV").trans
          (fi_av_insert_grows env InsertSrc.remote_buf _)).trans
          (World.Grows.cerr _ _ "ERROR - fi_av_insert did not return 1")
        simp only [ne_eq, not_true_eq_false, if_false, hr, fi_av_insert_fst, hc', not_false_eq_true,
          if_true, true_and]
        refine ((g01.mono isPoll_notSend).trans (g2.mono isSetup_notSend)).trans (g3.mono ?_)
        intro x hx
        cases x <;> simp_all [Call.isInsert, Call.notSend, Call.isSend]
      · right
        simp only [ne_eq, not_true_eq_false, if_false, hr, not_false_eq_true, if_true]
        exact ⟨Or.inr ⟨_, rfl⟩, (g01.mono isPoll_notInsert).trans (g2.mono isSetup_notInsert)⟩
    · right
      simp only [ne_eq, he, not_false_eq_true, if_true]
      exact ⟨Or.inr ⟨_, rfl⟩, g01.mono isPoll_notInsert⟩

theorem World.Grows.all {w w' : World} {p : Call → Bool} (h : w.Grows w' p)
    (hw : ∀ x ∈ w.calls, p x = true) : ∀ x ∈ w'.calls, p x = true :=
  fun x hx => (h.2 x hx).elim (hw x) id

theorem handshake_insert_abort (env : Env) (fuel : Nat) (l : Locals) (w : World)
    (hl : l.err = 0) (hc : env.fi_av_insert ≠ 1) :
    ((handshake env fuel l w).1 = Ctl.goto_exit { err := 0, ret := -1 } ∧
      w.Grows (handshake env fuel l w).2 Call.notSend) ∨
    (((handshake env fuel l w).1 = Ctl.spin ∨
        ∃ l', (handshake env fuel l w).1 = Ctl.goto_exit l') ∧
      w.Grows (handshake env fuel l w).2 Call.notInsert) := by
  unfold handshake
  split_ifs
  · left
    have h := handshake_client_insert_abort env fuel l w hc
    refine ⟨?_, h.2⟩
    rw [h.1, ← hl]
  · exact handshake_server_insert_abort env fuel l w hc

theorem run_of_exit {env : Env} {fuel : Nat} {w w' : World} {l : Locals}
    (h : rendezvous env fuel { err := 0, ret := 0 } w = (Ctl.goto_exit l, w')) :
    run env fuel w = (some (main_exit env l w').1, (main_exit env l w').2) := by
  simp [run, Ctl.andThen, h]

theorem run_of_spin {env : Env} {fuel : Nat} {w w' : World}
    (h : rendezvous env fuel { err := 0, ret := 0 } w = (Ctl.spin, w')) :
    run env fuel w = (none, w') := by
  simp [run, Ctl.andThen, h]

theorem rendezvous_of_setup_exit {env : Env} (fuel : Nat) {w : World} {l l' : Locals}
    (h : (setup env l w).1 = Ctl.goto_exit l') :
    rendezvous env fuel l w = (Ctl.goto_exit l', (setup env l w).2) := by
  rcases hs : setup env l w with ⟨c, w1⟩
  rw [hs] at h
  simp only at h
  subst h
  simp [rendezvous, Ctl.andThen, hs]

theorem rendezvous_of_setup_next {env : Env} (fuel : Nat) {w : World} {l l' : Locals}
    (h : (setup env l w).1 = Ctl.next l') :
    rendezvous env fuel l w = handshake env fuel l' (setup env l w).2 := by
  rcases hs : setup env l w with ⟨c, w1⟩
  rw [hs] at h
  simp only at h
  subst h
  simp [rendezvous, Ctl.andThen, hs]

theorem no_insert_of_notInsert {cs : List Call} (h : ∀ x ∈ cs, x.notInsert = true)
    (src : InsertSrc) (c : Int) : Call.fi_av_insert src c ∉ cs := by
  intro hin
  have := h _ hin
  simp [Call.notInsert, Call.isInsert] at this

theorem run_insert_abort (env : Env) (fuel : Nat) (w : World) (src : InsertSrc)
    (hw : w.calls = []) (hc : env.fi_av_insert ≠ 1)
    (hin : Call.fi_av_insert src env.fi_av_insert ∈ (run env fuel w).2.calls) :
    (run env fuel w).1 = some (-1) ∧ ∀ x ∈ (run env fuel w).2.calls, x.isSend = false := by
  have hw0 : ∀ (p : Call → Bool), ∀ x ∈ w.calls, p x = true := by
    intro p x hx; rw [hw] at hx; cases hx
  obtain ⟨gs, hs⟩ := setup_spec env { err := 0, ret := 0 } w
  rcases hs with hs | ⟨ret, hret, hs⟩
  · have hr := rendezvous_of_setup_next fuel hs
    rcases handshake_insert_abort env fuel { err := 0, ret := 0 } (setup env ⟨0, 0⟩ w).2 rfl hc
      with ⟨h1, g⟩ | ⟨h1, g⟩
    · rw [← hr] at h1 g
      have hrun := run_of_exit (Prod.ext h1 rfl : rendezvous env fuel ⟨0, 0⟩ w = (_, _))
      rw [hrun]
      have gx := main_exit_grows env ⟨0, -1⟩ (rendezvous env fuel ⟨0, 0⟩ w).2
      refine ⟨by simp [main_exit_eq], fun x hx => ?_⟩
      have := (((gs.mono isSetup_notSend).trans g).trans (gx.mono isRelease_notSend)).all
        (hw0 _) x hx
      simpa [Call.notSend] using this
    · rw [← hr] at h1 g
      exfalso
      have gall := ((gs.mono isSetup_notInsert).trans g)
      rcases h1 with h1 | ⟨l', h1⟩
      · have hrun := run_of_spin (Prod.ext h1 rfl : rendezvous env fuel ⟨0, 0⟩ w = (_, _))
        rw [hrun] at hin
        exact no_insert_of_notInsert (gall.all (hw0 _)) _ _ hin
      · have hrun := run_of_exit (Prod.ext h1 rfl : rendezvous env fuel ⟨0, 0⟩ w = (_, _))
        rw [hrun] at hin
        have gx := main_exit_grows env l' (rendezvous env fuel ⟨0, 0⟩ w).2
        exact no_insert_of_notInsert ((gall.trans (gx.mono isRelease_notInsert)).all (hw0 _))
          _ _ hin
  · exfalso
    have hr := rendezvous_of_setup_exit fuel hs
    have hrun := run_of_exit hr
    rw [hrun] at hin
    have gx := main_exit_grows env { err := 0, ret := ret } (setup env ⟨0, 0⟩ w).2
    exact no_insert_of_notInsert
      (((gs.mono isSetup_notInsert).trans (gx.mono isRelease_notInsert)).all (hw0 _)) _ _ hin

/-! ## C2: an insertion count other than 1 aborts the handshake -/

/-- C2.  For every provider behaviour, every fuel and every argument list
(hence for the Connector and for the Listener): if `fi_av_insert` reports a
count other than 1 and the run calls `fi_av_insert`, then `main` returns -1
and the run issues no `fi_send` at all (in particular none after the
insertion). -/
theorem insert_count_abort (env : Env) (fuel : Nat) (argv : List CharPtr) (src : InsertSrc)
    (hc : env.fi_av_insert ≠ 1)
    (hin : Call.fi_av_insert src env.fi_av_insert ∈ (main env fuel argv).2.calls) :
    (main env fuel argv).1 = some (-1) ∧
    ∀ x ∈ (main env fuel argv).2.calls, x.isSend = false := by
  unfold main at hin ⊢
  match argv with
  | [] => exact run_insert_abort env fuel _ src rfl hc hin
  | [_] => exact run_insert_abort env fuel _ src rfl hc hin
  | [_, a] =>
    simp only at hin ⊢
    split_ifs at hin ⊢ with h
    · simp [usage, World.cout] at hin
    · exact run_insert_abort env fuel _ src rfl hc hin
  | _ :: _ :: _ :: _ => simp [usage, World.cout] at hin

/-! ## Runs in which every operation succeeds -/

theorem send_step_eagain (env : Env) (buf : Buffer) (len fuel : Nat) (w : World)
    (h : env.fi_send w.n_send = -FI_EAGAIN) :
    send_loop env buf len (fuel + 1) w = send_loop env buf len fuel (w.resent buf len 1) := by
  have hp := FI_EAGAIN_pos
  have hn : ¬ (FI_EAGAIN = 0) := by omega
  simp [send_loop, fi_send, World.call, World.resent, h, hn]

theorem resent_resent (w : World) (buf : Buffer) (len a b : Nat) :
    (w.resent buf len a).resent buf len b = w.resent buf len (a + b) := by
  simp only [World.resent, List.replicate_add, Nat.add_assoc, List.append_assoc]

theorem resent_zero (w : World) (buf : Buffer) (len : Nat) : w.resent buf len 0 = w := by
  simp [World.resent]

theorem send_spin (env : Env) (buf : Buffer) (len k : Nat) :
    ∀ (fuel : Nat) (w : World),
      (∀ i, i < k → env.fi_send (w.n_send + i) = -FI_EAGAIN) →
      send_loop env buf len (k + fuel) w = send_loop env buf len fuel (w.resent buf len k) := by
  induction k with
  | zero => intro fuel w _; simp [resent_zero]
  | succ k ih =>
    intro fuel w h
    have h0 : env.fi_send w.n_send = -FI_EAGAIN := by simpa using h 0 (by omega)
    have e : k + 1 + fuel = (k + fuel) + 1 := by omega
    rw [e, send_step_eagain env buf len _ w h0, ih fuel (w.resent buf len 1), resent_resent]
    · congr 2; omega
    · intro i hi
      have := h (1 + i) (by omega)
      simpa [World.resent, Nat.add_assoc] using this

theorem send_loop_ok (env : Env) (buf : Buffer) (len k fuel : Nat) (w : World)
    (h : Sends env w.n_send k 0) (hf : k < fuel) :
    send_loop env buf len fuel w = (SendLoop.done 0, w.sent buf len k 0) := by
  obtain ⟨j, rfl⟩ : ∃ j, fuel = k + (j + 1) := ⟨fuel - k - 1, by omega⟩
  rw [send_spin env buf len k (j + 1) w h.1]
  have hl : env.fi_send (w.resent buf len k).n_send = 0 := h.2
  have hp := FI_EAGAIN_pos
  have hn : ¬ ((0 : Int) = -FI_EAGAIN) := by omega
  simp [send_loop, fi_send, World.call, hl, hn]
  simp [World.resent, World.sent, sendCalls]
  omega

theorem send_loop_fail (env : Env) (buf : Buffer) (len k fuel : Nat) (r : Int) (w : World)
    (h : Sends env w.n_send k r) (h0 : r ≠ 0) (hne : r ≠ -FI_EAGAIN) (hf : k < fuel) :
    send_loop env buf len fuel w = (SendLoop.goto_exit r, w.sent buf len k r) := by
  obtain ⟨j, rfl⟩ : ∃ j, fuel = k + (j + 1) := ⟨fuel - k - 1, by omega⟩
  rw [send_spin env buf len k (j + 1) w h.1]
  have hl : env.fi_send (w.resent buf len k).n_send = r := h.2
  simp [send_loop, fi_send, World.call, hl, h0, hne]
  simp [World.resent, World.sent, sendCalls]
  omega

theorem handshake_client_ok (env : Env) (fuel : Nat) (l : Locals) (w : World)
    (ks k1 k2 : Nat) (r1 r2 : Int)
    (hins : env.fi_av_insert = 1)
    (htype : env.av_type ≠ AvType.FI_AV_TABLE)
    (hname : (env.fi_getname (w.n_getname + 1)).1 = 0)
    (hlen : 0 < (env.fi_getname (w.n_getname + 1)).2)
    (hsend : Sends env w.n_send ks 0) (hfs : ks < fuel)
    (hrx : Polls env Queue.rx_cq w.n_read_rx k1 r1) (hr1 : 0 < r1) (hf1 : k1 < fuel)
    (hrecv : env.fi_recv w.n_recv = 0)
    (htx : Polls env Queue.tx_cq w.n_read_tx k2 r2) (hr2 : 0 < r2) (hf2 : k2 < fuel) :
    handshake_client env fuel l w
      = (Ctl.next { l with err := 0 },
         { w with remote_addr := env.fi_addr,
                  addr := env.malloc Buffer.addr,
                  addrlen := (env.fi_getname (w.n_getname + 1)).2,
                  n_getname := w.n_getname + 2,
                  n_send := w.n_send + (ks + 1),
                  n_read_rx := w.n_read_rx + (k1 + 1),
                  n_recv := w.n_recv + 1,
                  n_read_tx := w.n_read_tx + (k2 + 1),
                  calls := w.calls ++ clientHandshakeCalls env (env.fi_getname w.n_getname).1
                    (env.fi_getname (w.n_getname + 1)).2 ks k1 k2 r1 r2,
                  console := w.console ++
                    ([Out.cout "Client: Adding server to AV"]
                      ++ (if env.errno ≠ 0 then [Out.cerr "ERROR - "] else [])
                      ++ [Out.cout "Client: Getting address to send to server",
                          Out.cout "Client: Sending", Out.cout "Client: Waiting for ack",
                          Out.cout "Client: Receiving",
                          Out.cout "Client: Waiting for Tx CQ completion"]) }) := by
  rcases w with ⟨dst, hints, fi, fabric, domain, tx, rx, av, ep, mr, lb, rb, addr,
    alen, raddr, nr, ng, ns, ntx, nrx, calls, console⟩
  simp only at hname hlen hsend hrx hrecv htx
  have hlen' : ¬ ((env.fi_getname (ng + 1)).2 ≤ 0) := by omega
  by_cases herrno : env.errno = 0 <;>
  · simp only [handshake_client, fi_av_insert, fi_getname, World.call, World.cout, World.cerr,
      hins, herrno, htype, hname, hlen', ne_eq, not_true_eq_false, not_false_eq_true, if_false,
      if_true]
    rw [send_loop_ok env _ _ ks fuel _ hsend hfs]
    simp only [World.sent]
    rw [wait_ok env Queue.rx_cq k1 r1 fuel _ (by exact hrx) hr1 hf1]
    simp only [World.waited, fi_recv, World.call, hrecv, ne_eq, not_true_eq_false, if_false]
    rw [wait_ok env Queue.tx_cq k2 r2 fuel _ (by exact htx) hr2 hf2]
    simp [World.waited, clientHandshakeCalls, Nat.add_assoc]

theorem handshake_server_ok (env : Env) (fuel : Nat) (l : Locals) (w : World)
    (k1 ks k2 : Nat) (r1 r2 : Int)
    (hrx : Polls env Queue.rx_cq w.n_read_rx k1 r1) (hr1 : 0 < r1) (hf1 : k1 < fuel)
    (hrecv : env.fi_recv w.n_recv = 0)
    (hins : env.fi_av_insert = 1)
    (hsend : Sends env w.n_send ks 0) (hfs : ks < fuel)
    (htx : Polls env Queue.tx_cq w.n_read_tx k2 r2) (hr2 : 0 < r2) (hf2 : k2 < fuel) :
    handshake_server env fuel l w
      = (Ctl.next { l with err := 0 },
         { w with remote_addr := env.fi_addr,
                  n_send := w.n_send + (ks + 1),
                  n_read_rx := w.n_read_rx + (k1 + 1),
                  n_recv := w.n_recv + 1,
                  n_read_tx := w.n_read_tx + (k2 + 1),
                  calls := w.calls ++ serverHandshakeCalls env k1 ks k2 r1 r2,
                  console := w.console ++
                    [Out.cout "Server: Waiting for client to connect",
                     Out.cout "Server: Receiving client address",
                     Out.cout "Server: Adding client to AV", Out.cout "Server: Sending ack",
                     Out.cout "Server: Waiting for Tx CQ completion"] }) := by
  rcases w with ⟨dst, hints, fi, fabric, domain, tx, rx, av, ep, mr, lb, rb, addr,
    alen, raddr, nr, ng, ns, ntx, nrx, calls, console⟩
  simp only at hsend hrx hrecv htx
  simp only [handshake_server, World.cout]
  rw [wait_ok env Queue.rx_cq k1 r1 fuel _ (by exact hrx) hr1 hf1]
  simp only [World.waited, fi_recv, fi_av_insert, World.call, World.cout, hrecv, hins, ne_eq,
    not_true_eq_false, if_false]
  rw [send_loop_ok env _ _ ks fuel _ hsend hfs]
  simp only [World.sent, World.cout]
  rw [wait_ok env Queue.tx_cq k2 r2 fuel _ (by exact htx) hr2 hf2]
  simp [World.waited, serverHandshakeCalls, Nat.add_assoc]

theorem ping_pong_client_ok (env : Env) (fuel : Nat) (l : Locals) (w : World)
    (k3 k4 : Nat) (r3 r4 : Int)
    (hsend : env.fi_send w.n_send = 0)
    (htx : Polls env Queue.tx_cq w.n_read_tx k3 r3) (hr3 : 0 < r3) (hf3 : k3 < fuel)
    (hrx : Polls env Queue.rx_cq w.n_read_rx k4 r4) (hr4 : 0 < r4) (hf4 : k4 < fuel)
    (hrecv : env.fi_recv w.n_recv = 0) :
    ping_pong_client env fuel l w
      = (Ctl.next { l with err := 0 },
         { w with n_send := w.n_send + 1,
                  n_read_tx := w.n_read_tx + (k3 + 1),
                  n_read_rx := w.n_read_rx + (k4 + 1),
                  n_recv := w.n_recv + 1,
                  calls := w.calls ++ clientPingPongCalls w.remote_addr k3 k4 r3 r4,
                  console := w.console ++
                    [Out.cout "Client: Sending ping pong message",
                     Out.cout "Client: Waiting for Tx completion",
                     Out.cout "Client: Waiting for Rx completion",
                     Out.cout "Client: Receiving message"] }) := by
  rcases w with ⟨dst, hints, fi, fabric, domain, tx, rx, av, ep, mr, lb, rb, addr,
    alen, raddr, nr, ng, ns, ntx, nrx, calls, console⟩
  simp only at hsend hrx hrecv htx
  simp only [ping_pong_client, fi_send, World.call, World.cout, hsend, ne_eq, not_true_eq_false,
    if_false]
  rw [wait_ok env Queue.tx_cq k3 r3 fuel _ (by exact htx) hr3 hf3]
  simp only [World.waited, ne_eq, not_true_eq_false, if_false]
  rw [wait_ok env Queue.rx_cq k4 r4 fuel _ (by exact hrx) hr4 hf4]
  simp [World.waited, fi_recv, World.call, hrecv, clientPingPongCalls]

theorem ping_pong_server_ok (env : Env) (fuel : Nat) (l : Locals) (w : World)
    (k3 k4 : Nat) (r3 r4 : Int)
    (hrx : Polls env Queue.rx_cq w.n_read_rx k3 r3) (hr3 : 0 < r3) (hf3 : k3 < fuel)
    (hrecv : env.fi_recv w.n_recv = 0)
    (hsend : env.fi_send w.n_send = 0)
    (htx : Polls env Queue.tx_cq w.n_read_tx k4 r4) (hr4 : 0 < r4) (hf4 : k4 < fuel) :
    ping_pong_server env fuel l w
      = (Ctl.next { l with err := 0 },
         { w with n_send := w.n_send + 1,
                  n_read_rx := w.n_read_rx + (k3 + 1),
                  n_read_tx := w.n_read_tx + (k4 + 1),
                  n_recv := w.n_recv + 1,
                  calls := w.calls ++ serverPingPongCalls w.remote_addr k3 k4 r3 r4,
                  console := w.console ++
                    [Out.cout "Server: Waiting for Rx completion",
                     Out.cout "Server: Receiving message",
                     Out.cout "Server: Sending message",
                     Out.cout "Server: Waiting for Tx completion"] }) := by
  rcases w with ⟨dst, hints, fi, fabric, domain, tx, rx, av, ep, mr, lb, rb, addr,
    alen, raddr, nr, ng, ns, ntx, nrx, calls, console⟩
  simp only at hsend hrx hrecv htx
  simp only [ping_pong_server, World.cout]
  rw [wait_ok env Queue.rx_cq k3 r3 fuel _ (by exact hrx) hr3 hf3]
  simp only [World.waited, fi_recv, fi_send, World.call, World.cout, hrecv, hsend, ne_eq,
    not_true_eq_false, if_false]
  rw [wait_ok env Queue.tx_cq k4 r4 fuel _ (by exact htx) hr4 hf4]
  simp [World.waited, serverPingPongCalls]

theorem run_client_ok (env : Env) (fuel : Nat) (a : CharPtr) (out : List Out)
    (ks k1 k2 k3 k4 : Nat) (r1 r2 r3 r4 : Int)
    (h : ClientOk env ks k1 k2 k3 k4 r1 r2 r3 r4)
    (hf : ks < fuel ∧ k1 < fuel ∧ k2 < fuel ∧ k3 < fuel ∧ k4 < fuel) :
    (run env fuel { dst_addr := some a, console := out }).1 = some 0 ∧
    (run env fuel { dst_addr := some a, console := out }).2.calls
      = clientRunCalls env a.text ks k1 k2 k3 k4 r1 r2 r3 r4 := by
  obtain ⟨hsetup, hmalloc, hrecv0, hins, htype, hname, hlen, hsend, ⟨hrx1, hr1⟩, hrecv1,
    ⟨htx2, hr2⟩, hsend2, ⟨htx3, hr3⟩, ⟨hrx4, hr4⟩, hrecv2⟩ := h
  obtain ⟨hfs, hf1, hf2, hf3, hf4⟩ := hf
  simp only [run, rendezvous, setup_ok env _ _ hsetup, Ctl.andThen, handshake, World.afterSetup,
    Option.isSome_some, if_true]
  rw [handshake_client_ok env fuel _ _ ks k1 k2 r1 r2 hins htype (by simpa using hname)
    (by simpa using hlen) (by simpa using hsend) hfs (by simpa using hrx1) hr1 hf1
    (by simpa using hrecv1) (by simpa using htx2) hr2 hf2]
  simp only [ping_pong, Option.isSome_some, if_true]
  rw [ping_pong_client_ok env fuel _ _ k3 k4 r3 r4 (by simpa using hsend2)
    (by simpa using htx3) hr3 hf3 (by simpa using hrx4) hr4 hf4 (by simpa using hrecv2)]
  simp [main_exit_eq, releaseCalls, clientRunCalls, hmalloc, hrecv0]

theorem run_server_ok (env : Env) (fuel : Nat) (out : List Out)
    (ks k1 k2 k3 k4 : Nat) (r1 r2 r3 r4 : Int)
    (h : ServerOk env ks k1 k2 k3 k4 r1 r2 r3 r4)
    (hf : ks < fuel ∧ k1 < fuel ∧ k2 < fuel ∧ k3 < fuel ∧ k4 < fuel) :
    (run env fuel { console := out }).1 = some 0 ∧
    (run env fuel { console := out }).2.calls
      = serverRunCalls env ks k1 k2 k3 k4 r1 r2 r3 r4 := by
  obtain ⟨hsetup, hrecv0, ⟨hrx1, hr1⟩, hrecv1, hins, hsend, ⟨htx2, hr2⟩, ⟨hrx3, hr3⟩, hrecv2,
    hsend2, ⟨htx4, hr4⟩⟩ := h
  obtain ⟨hfs, hf1, hf2, hf3, hf4⟩ := hf
  simp only [run, rendezvous, setup_ok env _ _ hsetup, Ctl.andThen, handshake, World.afterSetup,
    Option.isSome_none, Bool.false_eq_true, if_false]
  rw [handshake_server_ok env fuel _ _ k1 ks k2 r1 r2 (by simpa using hrx1) hr1 hf1
    (by simpa using hrecv1) hins (by simpa using hsend) hfs (by simpa using htx2) hr2 hf2]
  simp only [ping_pong, Option.isSome_none, Bool.false_eq_true, if_false]
  rw [ping_pong_server_ok env fuel _ _ k3 k4 r3 r4 (by simpa using hrx3) hr3 hf3
    (by simpa using hrecv2) (by simpa using hsend2) (by simpa using htx4) hr4 hf4]
  simp [main_exit_eq, releaseCalls, serverRunCalls, hrecv0]

theorem main_client (env : Env) (fuel : Nat) (a0 a1 : CharPtr)
    (h : a1.ptr ≠ env.help_literal) :
    main env fuel [a0, a1]
      = run env fuel { dst_addr := some a1,
                       console := [Out.cout "Running as CLIENT - server addr="] } := by
  simp [main, h, World.cout]

theorem main_server (env : Env) (fuel : Nat) (argv : List CharPtr) (h : argv.length < 2) :
    main env fuel argv = run env fuel { console := [Out.cout "Running as SERVER"] } := by
  match argv, h with
  | [], _ => simp [main, World.cout]
  | [_], _ => simp [main, World.cout]

/-! ## C6: order of the ping-pong phase -/

/-- C6.  In a run in which the handshake and every operation succeed, the
calls issued between the handshake and the teardown are, for the Connector:
one `fi_send` of `local_buf` with `max_msg_size` bytes to the handle written
by `fi_av_insert`, then the reads of a wait on the transmit queue, then the
reads of a wait on the receive queue (and then a re-posted `fi_recv`); for the
Listener: the reads of a wait on the receive queue, (a re-posted `fi_recv`,)
one `fi_send` of `local_buf` with `max_msg_size` bytes to that handle, then
the reads of a wait on the transmit queue.  There is exactly one `fi_send` in
the phase for either role, and `main` returns 0. -/
theorem ping_pong_order (env : Env) (fuel : Nat) (a0 a1 : CharPtr) (argv : List CharPtr)
    (ks k1 k2 k3 k4 : Nat) (r1 r2 r3 r4 : Int)
    (hf : ks < fuel ∧ k1 < fuel ∧ k2 < fuel ∧ k3 < fuel ∧ k4 < fuel) :
    (a1.ptr ≠ env.help_literal → ClientOk env ks k1 k2 k3 k4 r1 r2 r3 r4 →
      (main env fuel [a0, a1]).1 = some 0 ∧
      (main env fuel [a0, a1]).2.calls
        = (setupCalls env (some a1.text) 0
            ++ clientHandshakeCalls env (env.fi_getname 0).1 (env.fi_getname 1).2 ks k1 k2 r1 r2)
          ++ ([Call.fi_send Buffer.local_buf max_msg_size env.fi_addr 0]
              ++ pollCalls Queue.tx_cq k3 r3 ++ pollCalls Queue.rx_cq k4 r4 ++ [Call.fi_recv 0])
          ++ [Call.fi_freeinfo Info.hints, Call.fi_freeinfo Info.fi, Call.free Buffer.local_buf,
              Call.free Buffer.remote_buf, Call.free Buffer.addr]) ∧
    (argv.length < 2 → ServerOk env ks k1 k2 k3 k4 r1 r2 r3 r4 →
      (main env fuel argv).1 = some 0 ∧
      (main env fuel argv).2.calls
        = (setupCalls env none 0 ++ serverHandshakeCalls env k1 ks k2 r1 r2)
          ++ (pollCalls Queue.rx_cq k3 r3
              ++ [Call.fi_recv 0, Call.fi_send Buffer.local_buf max_msg_size env.fi_addr 0]
              ++ pollCalls Queue.tx_cq k4 r4)
          ++ [Call.fi_freeinfo Info.hints, Call.fi_freeinfo Info.fi, Call.free Buffer.local_buf,
              Call.free Buffer.remote_buf]) := by
  refine ⟨fun ha h => ?_, fun ha h => ?_⟩
  · rw [main_client env fuel a0 a1 ha]
    have := run_client_ok env fuel a1 [Out.cout "Running as CLIENT - server addr="] ks k1 k2 k3 k4 r1 r2 r3 r4 h hf
    refine ⟨this.1, ?_⟩
    rw [this.2]
    simp [clientRunCalls, clientPingPongCalls]
  · rw [main_server env fuel argv ha]
    have := run_server_ok env fuel [Out.cout "Running as SERVER"] ks k1 k2 k3 k4 r1 r2 r3 r4 h hf
    refine ⟨this.1, ?_⟩
    rw [this.2]
    simp [serverRunCalls, serverPingPongCalls]

/-! ## C3: the addressing-mode check -/

theorem isSetup_notTransfer (x : Call) (h : x.isSetup = true) : x.notTransfer = true := by
  cases x <;> simp_all [Call.isSetup, Call.notTransfer, Call.isSend, Call.isGetname, Call.isPoll]
theorem isInsert_notTransfer (x : Call) (h : x.isInsert = true) : x.notTransfer = true := by
  cases x <;> simp_all [Call.isInsert, Call.notTransfer, Call.isSend, Call.isGetname, Call.isPoll]
theorem isRelease_notTransfer (x : Call) (h : x.isRelease = true) : x.notTransfer = true := by
  cases x <;> simp_all [Call.isRelease, Call.notTransfer, Call.isSend, Call.isGetname, Call.isPoll]

theorem handshake_client_table (env : Env) (fuel : Nat) (l : Locals) (w : World)
    (ht : env.av_type = AvType.FI_AV_TABLE) :
    (handshake_client env fuel l w).1 = Ctl.goto_exit { l with ret := -1 } ∧
    w.Grows (handshake_client env fuel l w).2 Call.isInsert := by
  have g := (World.Grows.cout w Call.isInsert "Client: Adding server to AV").trans
    (fi_av_insert_grows env InsertSrc.dest_addr _)
  by_cases hins : (1 : Int) = env.fi_av_insert
  · by_cases herrno : env.errno = 0
    · simp only [handshake_client, fi_av_insert_fst, hins, ht, herrno, ne_eq, not_true_eq_false,
        if_false, if_true, true_and]
      exact g.trans (World.Grows.cerr _ _ _)
    · simp only [handshake_client, fi_av_insert_fst, hins, ht, herrno, ne_eq, not_true_eq_false,
        not_false_eq_true, if_false, if_true, true_and]
      exact (g.trans (World.Grows.cerr _ _ _)).trans (World.Grows.cerr _ _ _)
  · simp only [handshake_client, fi_av_insert_fst, hins, ne_eq, not_false_eq_true, if_true,
      true_and]
    exact g.trans (World.Grows.cerr _ _ _)

theorem run_table (env : Env) (fuel : Nat) (w : World)
    (hw : w.calls = []) (hd : w.dst_addr.isSome = true)
    (ht : env.av_type = AvType.FI_AV_TABLE) :
    ∃ r, (run env fuel w).1 = some r ∧ r ≠ 0 ∧
      ∀ x ∈ (run env fuel w).2.calls,
        x.isSend = false ∧ x.isGetname = false ∧ x.isPoll = false := by
  have hw0 : ∀ (p : Call → Bool), ∀ x ∈ w.calls, p x = true := by
    intro p x hx; rw [hw] at hx; cases hx
  have key : ∀ cs : List Call, (∀ x ∈ cs, x.notTransfer = true) →
      ∀ x ∈ cs, x.isSend = false ∧ x.isGetname = false ∧ x.isPoll = false := by
    intro cs h x hx
    have := h x hx
    simpa [Call.notTransfer, and_assoc] using this
  obtain ⟨gs, hs⟩ := setup_spec env { err := 0, ret := 0 } w
  rcases hs with hs | ⟨ret, hret, hs⟩
  · have hr := rendezvous_of_setup_next fuel hs
    have hd' : (setup env ⟨0, 0⟩ w).2.dst_addr.isSome = true := by rw [gs.1]; exact hd
    have hh : handshake env fuel ⟨0, 0⟩ (setup env ⟨0, 0⟩ w).2
        = handshake_client env fuel ⟨0, 0⟩ (setup env ⟨0, 0⟩ w).2 := by
      simp [handshake, hd']
    obtain ⟨h1, g⟩ := handshake_client_table env fuel ⟨0, 0⟩ (setup env ⟨0, 0⟩ w).2 ht
    rw [← hh, ← hr] at h1 g
    have hrun := run_of_exit (Prod.ext h1 rfl : rendezvous env fuel ⟨0, 0⟩ w = (_, _))
    rw [hrun]
    have gx := main_exit_grows env ⟨0, -1⟩ (rendezvous env fuel ⟨0, 0⟩ w).2
    refine ⟨-1, by simp [main_exit_eq], by decide, key _ ?_⟩
    exact (((gs.mono isSetup_notTransfer).trans (g.mono isInsert_notTransfer)).trans
      (gx.mono isRelease_notTransfer)).all (hw0 _)
  · have hr := rendezvous_of_setup_exit fuel hs
    have hrun := run_of_exit hr
    rw [hrun]
    have gx := main_exit_grows env { err := 0, ret := ret } (setup env ⟨0, 0⟩ w).2
    refine ⟨ret, by simp [main_exit_eq], hret, key _ ?_⟩
    exact ((gs.mono isSetup_notTransfer).trans (gx.mono isRelease_notTransfer)).all (hw0 _)

theorem handshake_client_table_eq (env : Env) (fuel : Nat) (l : Locals) (w : World)
    (ht : env.av_type = AvType.FI_AV_TABLE) :
    handshake_client env fuel l w
      = (Ctl.goto_exit { l with ret := -1 },
         { w with remote_addr := env.fi_addr,
                  calls := w.calls ++ [Call.fi_av_insert InsertSrc.dest_addr env.fi_av_insert],
                  console := w.console ++ ([Out.cout "Client: Adding server to AV"]
                    ++ (if 1 ≠ env.fi_av_insert then
                          [Out.cerr "ERROR - fi_av_insert did not return 1"]
                        else (if env.errno ≠ 0 then [Out.cerr "ERROR - "] else [])
                          ++ [Out.cerr "ERROR - can not support FI_AV_TABLE"])) }) := by
  rcases w with ⟨dst, hints, fi, fabric, domain, tx, rx, av, ep, mr, lb, rb, addr,
    alen, raddr, nr, ng, ns, ntx, nrx, calls, console⟩
  by_cases hins : (1 : Int) = env.fi_av_insert <;> by_cases herrno : env.errno = 0 <;>
    simp [handshake_client, fi_av_insert, World.call, World.cout, World.cerr, hins, herrno, ht]

theorem run_table_calls (env : Env) (fuel : Nat) (a : CharPtr) (out : List Out)
    (ht : env.av_type = AvType.FI_AV_TABLE) (hs : SetupOk env) :
    (run env fuel { dst_addr := some a, console := out }).2.calls
      = setupCalls env (some a.text) (env.fi_recv 0)
        ++ [Call.fi_av_insert InsertSrc.dest_addr env.fi_av_insert]
        ++ [Call.fi_freeinfo Info.hints, Call.fi_freeinfo Info.fi, Call.free Buffer.local_buf,
            Call.free Buffer.remote_buf] := by
  simp only [run, rendezvous, setup_ok env _ _ hs, Ctl.andThen, handshake, World.afterSetup,
    Option.isSome_some, if_true, handshake_client_table_eq env fuel _ _ ht]
  simp [main_exit_eq, releaseCalls]

/-- C3 (amended).  In every Connector run in which the provider reports the
addressing mode `FI_AV_TABLE`, `main` returns a non-zero status and the run
issues no `fi_send`, no `fi_getname` and no completion-queue read.  When the
setup steps succeed, the calls of the run are exactly: the setup calls ending
with the first `fi_recv`, the `fi_av_insert` of the peer address, and the
releases of teardown: the mode is checked after the receive has been posted
and after the insertion. -/
theorem table_mode_rejected_before_send (env : Env) (fuel : Nat) (a0 a1 : CharPtr)
    (ha : a1.ptr ≠ env.help_literal) (ht : env.av_type = AvType.FI_AV_TABLE) :
    (∃ r, (main env fuel [a0, a1]).1 = some r ∧ r ≠ 0 ∧
      ∀ x ∈ (main env fuel [a0, a1]).2.calls,
        x.isSend = false ∧ x.isGetname = false ∧ x.isPoll = false) ∧
    (SetupOk env →
      (main env fuel [a0, a1]).2.calls
        = setupCalls env (some a1.text) (env.fi_recv 0)
          ++ [Call.fi_av_insert InsertSrc.dest_addr env.fi_av_insert]
          ++ [Call.fi_freeinfo Info.hints, Call.fi_freeinfo Info.fi,
              Call.free Buffer.local_buf, Call.free Buffer.remote_buf]) := by
  rw [main_client env fuel a0 a1 ha]
  exact ⟨run_table env fuel _ rfl rfl ht, run_table_calls env fuel a1 _ ht⟩

/-! ## C7: teardown -/

/-- C7 (amended).  `release_all` never calls `fi_close`: whatever the close
operations would report, it issues only the `fi_freeinfo` and `free` calls for
the info structures and buffers that are set, and it always returns 0. -/
theorem release_all_never_closes (env : Env) (w : World) :
    (release_all env w).1 = 0 ∧
    (release_all env w).2.calls
      = w.calls
        ++ (if w.hints then [Call.fi_freeinfo Info.hints] else [])
        ++ (if w.fi then [Call.fi_freeinfo Info.fi] else [])
        ++ (if w.local_buf then [Call.free Buffer.local_buf] else [])
        ++ (if w.remote_buf then [Call.free Buffer.remote_buf] else [])
        ++ (if w.addr then [Call.free Buffer.addr] else []) := by
  rw [release_all_eq]
  exact ⟨rfl, by simp [releaseCalls]⟩

/-! ## C10: a read that reports zero entries -/

/-- C10 (what the code does at the failing input).  When the read that ends
the wait reports 0 entries, `wait_for_completion` takes the error branch
(it calls `fi_cq_readerr`) and returns 0, the value its callers take for
success. -/
theorem wait_for_completion_zero_read (env : Env) (cq : Queue) (w : World) (k fuel : Nat)
    (h : Polls env cq (w.n_read cq) k 0) (hf : k < fuel) :
    (wait_for_completion env cq fuel w).1 = some 0 ∧
    (wait_for_completion env cq fuel w).2.calls
      = w.calls ++ List.replicate k (Call.fi_cq_read cq (-FI_EAGAIN))
          ++ [Call.fi_cq_read cq 0, Call.fi_cq_readerr cq] := by
  have hp := FI_EAGAIN_pos
  rw [wait_fail env cq k 0 fuel w h (by decide) (by omega) hf]
  exact ⟨rfl, failedWait_calls w cq k 0⟩

/-! ## Counting receives -/

theorem pollCalls_ne_free (cq : Queue) (k : Nat) (r : Int) :
    ∀ x ∈ pollCalls cq k r, (x != Call.free Buffer.remote_buf) = true := by
  intro x hx
  simp only [pollCalls, List.mem_append, List.mem_replicate, List.mem_singleton] at hx
  rcases hx with ⟨_, rfl⟩ | rfl <;> simp

theorem sendCalls_ne_free (buf : Buffer) (len dest k : Nat) (r : Int) :
    ∀ x ∈ sendCalls buf len dest k r, (x != Call.free Buffer.remote_buf) = true := by
  intro x hx
  simp only [sendCalls, List.mem_append, List.mem_replicate, List.mem_singleton] at hx
  rcases hx with ⟨_, rfl⟩ | rfl <;> simp

theorem receivesPosted_pollCalls (cq : Queue) (k : Nat) (r : Int) :
    receivesPosted (pollCalls cq k r) = 0 := by
  simp [receivesPosted, pollCalls, List.countP_replicate]

theorem receivesPosted_sendCalls (buf : Buffer) (len dest k : Nat) (r : Int) :
    receivesPosted (sendCalls buf len dest k r) = 0 := by
  simp [receivesPosted, sendCalls, List.countP_replicate]

theorem receivesPosted_append (a b : List Call) :
    receivesPosted (a ++ b) = receivesPosted a + receivesPosted b := by
  simp [receivesPosted, List.countP_append]

theorem completionsAwaited_append (a b : List Call) :
    completionsAwaited (a ++ b) = completionsAwaited a + completionsAwaited b := by
  simp [completionsAwaited, List.countP_append]

theorem completionsAwaited_sendCalls (buf : Buffer) (len dest k : Nat) (r : Int) :
    completionsAwaited (sendCalls buf len dest k r) = 0 := by
  simp [completionsAwaited, sendCalls, List.countP_replicate]

theorem completionsAwaited_poll_tx (k : Nat) (r : Int) :
    completionsAwaited (pollCalls Queue.tx_cq k r) = 0 := by
  simp [completionsAwaited, pollCalls, List.countP_replicate]

theorem completionsAwaited_poll_rx (k : Nat) (r : Int) (hr : 0 < r) :
    completionsAwaited (pollCalls Queue.rx_cq k r) = 1 := by
  have hp := FI_EAGAIN_pos
  have hn : ¬ (0 < -FI_EAGAIN) := by omega
  simp [completionsAwaited, pollCalls, List.countP_replicate, hr, hn]

theorem callsBeforeFree_client (env : Env) (node : String) (ks k1 k2 k3 k4 : Nat)
    (r1 r2 r3 r4 : Int) :
    callsBeforeFree (clientRunCalls env node ks k1 k2 k3 k4 r1 r2 r3 r4)
      = setupCalls env (some node) 0
        ++ clientHandshakeCalls env (env.fi_getname 0).1 (env.fi_getname 1).2 ks k1 k2 r1 r2
        ++ clientPingPongCalls env.fi_addr k3 k4 r3 r4
        ++ [Call.fi_freeinfo Info.hints, Call.fi_freeinfo Info.fi,
            Call.free Buffer.local_buf] := by
  have h : ∀ x ∈ setupCalls env (some node) 0
        ++ clientHandshakeCalls env (env.fi_getname 0).1 (env.fi_getname 1).2 ks k1 k2 r1 r2
        ++ clientPingPongCalls env.fi_addr k3 k4 r3 r4,
      (x != Call.free Buffer.remote_buf) = true := by
    intro x hx
    simp only [clientHandshakeCalls, clientPingPongCalls, List.mem_append] at hx
    rcases hx with ((hx | (((hx | hx) | hx) | hx) | hx) | (((hx | hx) | hx) | hx))
    all_goals first
      | exact pollCalls_ne_free _ _ _ x hx
      | exact sendCalls_ne_free _ _ _ _ _ x hx
      | (simp [setupCalls] at hx; rcases hx with h | h | h | h | h | h | h | h | h | h | h | h | h | h | h | h <;> subst h <;> simp)
      | (simp at hx; rcases hx with h | h | h | h <;> subst h <;> simp)
      | (simp at hx; subst hx; simp)
  unfold callsBeforeFree clientRunCalls
  rw [List.takeWhile_append_of_pos h]
  rfl

theorem callsBeforeFree_server (env : Env) (ks k1 k2 k3 k4 : Nat) (r1 r2 r3 r4 : Int) :
    callsBeforeFree (serverRunCalls env ks k1 k2 k3 k4 r1 r2 r3 r4)
      = setupCalls env none 0
        ++ serverHandshakeCalls env k1 ks k2 r1 r2
        ++ serverPingPongCalls env.fi_addr k3 k4 r3 r4
        ++ [Call.fi_freeinfo Info.hints, Call.fi_freeinfo Info.fi,
            Call.free Buffer.local_buf] := by
  have h : ∀ x ∈ setupCalls env none 0
        ++ serverHandshakeCalls env k1 ks k2 r1 r2
        ++ serverPingPongCalls env.fi_addr k3 k4 r3 r4,
      (x != Call.free Buffer.remote_buf) = true := by
    intro x hx
    simp only [serverHandshakeCalls, serverPingPongCalls, List.mem_append] at hx
    rcases hx with ((hx | (((hx | hx) | hx) | hx)) | ((hx | hx) | hx))
    all_goals first
      | exact pollCalls_ne_free _ _ _ x hx
      | exact sendCalls_ne_free _ _ _ _ _ x hx
      | (simp [setupCalls] at hx; rcases hx with h | h | h | h | h | h | h | h | h | h | h | h | h | h | h | h <;> subst h <;> simp)
      | (simp at hx; rcases hx with h | h <;> subst h <;> simp)
  unfold callsBeforeFree serverRunCalls
  rw [List.takeWhile_append_of_pos h]
  rfl

/-! ## C9: receives outstanding at teardown -/

/-- C9 (amended).  In every fully successful run of either role, at the moment
`release_all` frees `remote_buf` the program has posted three receives on
`remote_buf` and has awaited two receive completions: one posted receive (the
one re-posted after the last completion) is still pending. -/
theorem one_receive_pending_at_free (env : Env) (fuel : Nat) (a0 a1 : CharPtr)
    (argv : List CharPtr) (ks k1 k2 k3 k4 : Nat) (r1 r2 r3 r4 : Int)
    (hf : ks < fuel ∧ k1 < fuel ∧ k2 < fuel ∧ k3 < fuel ∧ k4 < fuel) :
    (a1.ptr ≠ env.help_literal → ClientOk env ks k1 k2 k3 k4 r1 r2 r3 r4 →
      Call.free Buffer.remote_buf ∈ (main env fuel [a0, a1]).2.calls ∧
      receivesPosted (callsBeforeFree (main env fuel [a0, a1]).2.calls) = 3 ∧
      completionsAwaited (callsBeforeFree (main env fuel [a0, a1]).2.calls) = 2) ∧
    (argv.length < 2 → ServerOk env ks k1 k2 k3 k4 r1 r2 r3 r4 →
      Call.free Buffer.remote_buf ∈ (main env fuel argv).2.calls ∧
      receivesPosted (callsBeforeFree (main env fuel argv).2.calls) = 3 ∧
      completionsAwaited (callsBeforeFree (main env fuel argv).2.calls) = 2) := by
  refine ⟨fun ha h => ?_, fun ha h => ?_⟩
  · rw [main_client env fuel a0 a1 ha,
      (run_client_ok env fuel a1 [Out.cout "Running as CLIENT - server addr="]
        ks k1 k2 k3 k4 r1 r2 r3 r4 h hf).2, callsBeforeFree_client]
    obtain ⟨_, _, _, _, _, _, _, _, ⟨_, hr1⟩, _, _, _, _, ⟨_, hr4⟩, _⟩ := h
    refine ⟨by simp [clientRunCalls], ?_, ?_⟩
    · simp only [receivesPosted_append, clientHandshakeCalls, clientPingPongCalls,
        receivesPosted_pollCalls, receivesPosted_sendCalls]
      simp [receivesPosted, setupCalls]
    · simp only [completionsAwaited_append, clientHandshakeCalls, clientPingPongCalls,
        completionsAwaited_sendCalls, completionsAwaited_poll_tx,
        completionsAwaited_poll_rx _ _ hr1, completionsAwaited_poll_rx _ _ hr4]
      simp [completionsAwaited, setupCalls]
  · rw [main_server env fuel argv ha,
      (run_server_ok env fuel [Out.cout "Running as SERVER"]
        ks k1 k2 k3 k4 r1 r2 r3 r4 h hf).2, callsBeforeFree_server]
    obtain ⟨_, _, ⟨_, hr1⟩, _, _, _, _, ⟨_, hr3⟩, _, _, _⟩ := h
    refine ⟨by simp [serverRunCalls], ?_, ?_⟩
    · simp only [receivesPosted_append, serverHandshakeCalls, serverPingPongCalls,
        receivesPosted_pollCalls, receivesPosted_sendCalls]
      simp [receivesPosted, setupCalls]
    · simp only [completionsAwaited_append, serverHandshakeCalls, serverPingPongCalls,
        completionsAwaited_sendCalls, completionsAwaited_poll_tx,
        completionsAwaited_poll_rx _ _ hr1, completionsAwaited_poll_rx _ _ hr3]
      simp [completionsAwaited, setupCalls]

/-! ## Evaluations at concrete providers -/

/-- C1, witness.  On a queue that answers `-FI_EAGAIN` once and then 1, the
wait has not returned after one iteration and returns 0 after two; on a queue
whose first answer is -259 it returns -259. -/
theorem wait_for_completion_contract_witness :
    Polls envOk Queue.rx_cq 0 1 1 ∧
    Polls envAckWaitFails Queue.tx_cq 0 0 (-259) ∧
    (wait_for_completion envOk Queue.rx_cq 1 {}).1 = none ∧
    (wait_for_completion envOk Queue.rx_cq 2 {}).1 = some 0 ∧
    (wait_for_completion envAckWaitFails Queue.tx_cq 1 {}).1 = some (-259) :=
  ⟨by decide, by decide,
   (wait_for_completion_contract envOk Queue.rx_cq {} 1 1 (by decide)).1 1 (by decide),
   (((wait_for_completion_contract envOk Queue.rx_cq {} 1 1 (by decide)).2 2 (by decide)).1
      (by decide)).1,
   (((wait_for_completion_contract envAckWaitFails Queue.tx_cq {} 0 (-259) (by decide)).2 1
      (by decide)).2 (by decide) (by decide)).1⟩

/-- C2, witness.  With a provider whose `fi_av_insert` reports 0, the
Connector run and the Listener run both reach the insertion and return -1, and
the Listener run contains no `fi_send`. -/
theorem insert_count_abort_witness :
    envInsertZero.fi_av_insert ≠ 1 ∧
    (main envInsertZero 2 [progName, serverArg]).1 = some (-1) ∧
    (main envInsertZero 2 [progName]).1 = some (-1) ∧
    (∀ x ∈ (main envInsertZero 2 [progName]).2.calls, x.isSend = false) :=
  ⟨by decide,
   (insert_count_abort envInsertZero 2 [progName, serverArg] InsertSrc.dest_addr (by decide)
      (by decide)).1,
   (insert_count_abort envInsertZero 2 [progName] InsertSrc.remote_buf (by decide)
      (by decide)).1,
   (insert_count_abort envInsertZero 2 [progName] InsertSrc.remote_buf (by decide)
      (by decide)).2⟩

/-- C3, counterexample.  A Connector run on a provider whose addressing mode
is `FI_AV_TABLE` is rejected with -1, but only after a receive has been posted
on the endpoint and the peer address has been inserted into the address
vector: both calls are in the log of the run. -/
theorem table_mode_checked_after_insert :
    envTable.av_type = AvType.FI_AV_TABLE ∧
    (main envTable 2 [progName, serverArg]).1 = some (-1) ∧
    (main envTable 2 [progName, serverArg]).2.calls
      = setupCalls envTable (some "10.0.0.1") 0
        ++ [Call.fi_av_insert InsertSrc.dest_addr 1,
            Call.fi_freeinfo Info.hints, Call.fi_freeinfo Info.fi,
            Call.free Buffer.local_buf, Call.free Buffer.remote_buf] ∧
    Call.fi_recv 0 ∈ (main envTable 2 [progName, serverArg]).2.calls ∧
    Call.fi_av_insert InsertSrc.dest_addr 1 ∈ (main envTable 2 [progName, serverArg]).2.calls := by
  decide

/-- C3 (amended), witness.  The Connector run on the `FI_AV_TABLE` provider. -/
theorem table_mode_rejected_before_send_witness :
    serverArg.ptr ≠ envTable.help_literal ∧ envTable.av_type = AvType.FI_AV_TABLE ∧
    SetupOk envTable ∧
    (∃ r, (main envTable 2 [progName, serverArg]).1 = some r ∧ r ≠ 0 ∧
      ∀ x ∈ (main envTable 2 [progName, serverArg]).2.calls,
        x.isSend = false ∧ x.isGetname = false ∧ x.isPoll = false) ∧
    (main envTable 2 [progName, serverArg]).2.calls
      = setupCalls envTable (some serverArg.text) (envTable.fi_recv 0)
        ++ [Call.fi_av_insert InsertSrc.dest_addr envTable.fi_av_insert]
        ++ [Call.fi_freeinfo Info.hints, Call.fi_freeinfo Info.fi,
            Call.free Buffer.local_buf, Call.free Buffer.remote_buf] :=
  ⟨by decide, by decide, by decide,
   (table_mode_rejected_before_send envTable 2 progName serverArg (by decide) (by decide)).1,
   (table_mode_rejected_before_send envTable 2 progName serverArg (by decide) (by decide)).2
     (by decide)⟩

/-- C4, the code at the failing input.  In a Connector run in which the
ping-pong `fi_send` (the second call of `fi_send`) is refused once with
`-FI_EAGAIN` and would be accepted at the next attempt, `main` issues that send
exactly once, does not retry it and returns `-FI_EAGAIN`. -/
theorem ping_pong_send_not_retried :
    envPingBusy.fi_send 1 = -FI_EAGAIN ∧ envPingBusy.fi_send 2 = 0 ∧
    (main envPingBusy 2 [progName, serverArg]).1 = some (-FI_EAGAIN) ∧
    (main envPingBusy 2 [progName, serverArg]).2.calls
      = setupCalls envPingBusy (some "10.0.0.1") 0
        ++ [Call.fi_av_insert InsertSrc.dest_addr 1, Call.fi_getname false (-257),
            Call.malloc Buffer.addr true, Call.fi_getname true 0,
            Call.fi_send Buffer.addr 16 7 0,
            Call.fi_cq_read Queue.rx_cq (-FI_EAGAIN), Call.fi_cq_read Queue.rx_cq 1,
            Call.fi_recv 0,
            Call.fi_cq_read Queue.tx_cq (-FI_EAGAIN), Call.fi_cq_read Queue.tx_cq 1,
            Call.fi_send Buffer.local_buf max_msg_size 7 (-FI_EAGAIN),
            Call.fi_freeinfo Info.hints, Call.fi_freeinfo Info.fi,
            Call.free Buffer.local_buf, Call.free Buffer.remote_buf,
            Call.free Buffer.addr] := by
  decide

/-- C5, the code at the failing input.  In a Listener run in which the wait on
the transmit queue that ends the handshake (line 372) reports the error -259,
`main` goes on with the ping-pong phase (a wait on the receive queue, a
`fi_send` of `max_msg_size` bytes, a wait on the transmit queue) and returns 0. -/
theorem failed_ack_wait_ignored :
    envAckWaitFails.fi_cq_read Queue.tx_cq 0 = -259 ∧
    (main envAckWaitFails 2 [progName]).1 = some 0 ∧
    (main envAckWaitFails 2 [progName]).2.calls
      = setupCalls envAckWaitFails none 0
        ++ [Call.fi_cq_read Queue.rx_cq 1, Call.fi_recv 0,
            Call.fi_av_insert InsertSrc.remote_buf 1,
            Call.fi_send Buffer.local_buf 1 7 (-FI_EAGAIN),
            Call.fi_send Buffer.local_buf 1 7 0,
            Call.fi_cq_read Queue.tx_cq (-259), Call.fi_cq_readerr Queue.tx_cq,
            Call.fi_cq_read Queue.rx_cq 1, Call.fi_recv 0,
            Call.fi_send Buffer.local_buf max_msg_size 7 0,
            Call.fi_cq_read Queue.tx_cq 1,
            Call.fi_freeinfo Info.hints, Call.fi_freeinfo Info.fi,
            Call.free Buffer.local_buf, Call.free Buffer.remote_buf] := by
  decide

/-- C6, witness.  The fully successful Connector and Listener runs on `envOk`. -/
theorem ping_pong_order_witness :
    serverArg.ptr ≠ envOk.help_literal ∧ ClientOk envOk 1 1 1 1 1 1 1 1 1 ∧
    ServerOk envOk 1 1 1 1 1 1 1 1 1 ∧
    (main envOk 2 [progName, serverArg]).1 = some 0 ∧
    (main envOk 2 [progName]).1 = some 0 :=
  ⟨by decide, by decide, by decide,
   ((ping_pong_order envOk 2 progName serverArg [progName] 1 1 1 1 1 1 1 1 1
      (by decide)).1 (by decide) (by decide)).1,
   ((ping_pong_order envOk 2 progName serverArg [progName] 1 1 1 1 1 1 1 1 1
      (by decide)).2 (by decide) (by decide)).1⟩

/-- C7, counterexample.  With every fabric object open and a provider on which
closing the address vector would fail, `release_all` returns 0 and its calls
are only the two `fi_freeinfo` and the two `free`: no close is attempted on
the endpoint, the completion queues, the address vector or the memory region. -/
theorem release_all_ignores_failing_close :
    envCloseFails.fi_close Resource.av ≠ 0 ∧
    (World.afterSetup {} envCloseFails).av = true ∧
    (World.afterSetup {} envCloseFails).tx_cq = true ∧
    (World.afterSetup {} envCloseFails).rx_cq = true ∧
    (World.afterSetup {} envCloseFails).mr = true ∧
    (World.afterSetup {} envCloseFails).ep = true ∧
    (release_all envCloseFails (World.afterSetup {} envCloseFails)).1 = 0 ∧
    (release_all envCloseFails (World.afterSetup {} envCloseFails)).2.calls
      = setupCalls envCloseFails none 0
        ++ [Call.fi_freeinfo Info.hints, Call.fi_freeinfo Info.fi,
            Call.free Buffer.local_buf, Call.free Buffer.remote_buf] := by
  decide

/-- C8, the code at the failing input.  Invoked with the single argument
`--help`, stored as every argument is at an address other than that of the
string literal, `main` sets `dst_addr` to that argument, runs as a client
(`fi_getinfo` is called with the node `--help`), prints no usage text and
returns the status of the failed provider discovery. -/
theorem help_argument_runs_client :
    helpArg.text = "--help" ∧
    (main envNoHost 2 [progName, helpArg]).1 = some (-61) ∧
    (main envNoHost 2 [progName, helpArg]).2.dst_addr = some helpArg ∧
    (main envNoHost 2 [progName, helpArg]).2.calls
      = [Call.fi_allocinfo, Call.fi_getinfo (some "--help") false (-61),
         Call.fi_freeinfo Info.hints] ∧
    (main envNoHost 2 [progName, helpArg]).2.console
      = [Out.cout "Running as CLIENT - server addr=", Out.cout "Getting fi provider",
         Out.cerr_error (-61), Out.cout "Cleaning up"] := by
  decide

/-- C9, counterexample.  In the fully successful Listener run on `envOk`, when
`release_all` frees `remote_buf` three receives have been posted and two
receive completions have been awaited: the numbers differ. -/
theorem posted_receive_outstanding_at_teardown :
    ServerOk envOk 1 1 1 1 1 1 1 1 1 ∧
    (main envOk 2 [progName]).1 = some 0 ∧
    Call.free Buffer.remote_buf ∈ (main envOk 2 [progName]).2.calls ∧
    receivesPosted (callsBeforeFree (main envOk 2 [progName]).2.calls) = 3 ∧
    completionsAwaited (callsBeforeFree (main envOk 2 [progName]).2.calls) = 2 ∧
    receivesPosted (callsBeforeFree (main envOk 2 [progName]).2.calls)
      ≠ completionsAwaited (callsBeforeFree (main envOk 2 [progName]).2.calls) := by
  decide

/-- C9 (amended), witness.  The fully successful Connector and Listener runs on
`envOk`. -/
theorem one_receive_pending_at_free_witness :
    serverArg.ptr ≠ envOk.help_literal ∧ ClientOk envOk 1 1 1 1 1 1 1 1 1 ∧
    ServerOk envOk 1 1 1 1 1 1 1 1 1 ∧
    receivesPosted (callsBeforeFree (main envOk 2 [progName, serverArg]).2.calls) = 3 ∧
    completionsAwaited (callsBeforeFree (main envOk 2 [progName, serverArg]).2.calls) = 2 ∧
    receivesPosted (callsBeforeFree (main envOk 2 [progName]).2.calls) = 3 ∧
    completionsAwaited (callsBeforeFree (main envOk 2 [progName]).2.calls) = 2 :=
  ⟨by decide, by decide, by decide,
   ((one_receive_pending_at_free envOk 2 progName serverArg [progName] 1 1 1 1 1 1 1 1 1
      (by decide)).1 (by decide) (by decide)).2.1,
   ((one_receive_pending_at_free envOk 2 progName serverArg [progName] 1 1 1 1 1 1 1 1 1
      (by decide)).1 (by decide) (by decide)).2.2,
   ((one_receive_pending_at_free envOk 2 progName serverArg [progName] 1 1 1 1 1 1 1 1 1
      (by decide)).2 (by decide) (by decide)).2.1,
   ((one_receive_pending_at_free envOk 2 progName serverArg [progName] 1 1 1 1 1 1 1 1 1
      (by decide)).2 (by decide) (by decide)).2.2⟩

/-- C10, witness.  On a queue whose first read reports 0 entries, the wait
calls `fi_cq_readerr` and returns 0. -/
theorem wait_for_completion_zero_read_witness :
    Polls envZeroRead Queue.rx_cq 0 0 0 ∧
    (wait_for_completion envZeroRead Queue.rx_cq 1 {}).1 = some 0 ∧
    (wait_for_completion envZeroRead Queue.rx_cq 1 {}).2.calls
      = [Call.fi_cq_read Queue.rx_cq 0, Call.fi_cq_readerr Queue.rx_cq] :=
  ⟨by decide,
   (wait_for_completion_zero_read envZeroRead Queue.rx_cq {} 0 1 (by decide) (by decide)).1,
   (wait_for_completion_zero_read envZeroRead Queue.rx_cq {} 0 1 (by decide) (by decide)).2⟩

end LibfabricHelloworld
